import Mathlib

/-!
Verification development for the deep-link builder bot (`src/main.py`).

The Python source is shallowly embedded: pure string utilities become Lean
functions on `String`/`List Char`, the aiogram conversation handlers become a
pure step function over an explicit state type and a record of collected
answers, and the relevant parts of `urllib.parse` (`quote`, `unquote`,
`urlparse`, `parse_qs`) are modelled on character lists after their CPython
implementations.  Machine-level concerns (the Telegram transport, logging,
`datetime.now()`) are out of scope; the current date is passed as an explicit
`today` argument.
-/

namespace LinkBot

/-! ## Python character helpers

`str.lower` and `str.isalnum` are Unicode aware in Python.  The embedding
covers the blocks the program can meet in its data flow and that the claims
exercise: Basic Latin, the Latin-1 letters, and Cyrillic.  Characters outside
these blocks are left unchanged by `pyLowerChar` and rejected by
`pyIsAlnum`. -/

/-- Lower-casing of a single character: ASCII `A`-`Z`, Latin-1 `À`-`Þ`
(except `×`), and the Cyrillic ranges `Ѐ`-`Џ` and `А`-`Я`. -/
def pyLowerChar (c : Char) : Char :=
  if 0x41 ≤ c.toNat ∧ c.toNat ≤ 0x5A then Char.ofNat (c.toNat + 32)
  else if 0xC0 ≤ c.toNat ∧ c.toNat ≤ 0xDE ∧ c.toNat ≠ 0xD7 then Char.ofNat (c.toNat + 32)
  else if 0x400 ≤ c.toNat ∧ c.toNat ≤ 0x40F then Char.ofNat (c.toNat + 0x50)
  else if 0x410 ≤ c.toNat ∧ c.toNat ≤ 0x42F then Char.ofNat (c.toNat + 0x20)
  else c

/-- Python `str.lower`, character-wise on the covered blocks. -/
def pyLower (s : String) : String := ⟨s.data.map pyLowerChar⟩

/-- Python `str.isalnum` restricted to the covered blocks: ASCII digits and
letters, Latin-1 letters (excluding `×` and `÷`), and Cyrillic `U+0400`-`U+04FF`. -/
def pyIsAlnum (c : Char) : Bool :=
  (0x30 ≤ c.toNat && c.toNat ≤ 0x39) || (0x41 ≤ c.toNat && c.toNat ≤ 0x5A) ||
  (0x61 ≤ c.toNat && c.toNat ≤ 0x7A) ||
  (0xC0 ≤ c.toNat && c.toNat ≤ 0xFF && c.toNat ≠ 0xD7 && c.toNat ≠ 0xF7) ||
  (0x400 ≤ c.toNat && c.toNat ≤ 0x4FF)

/-- ASCII whitespace test used by Python `str.strip` on the inputs at hand. -/
def pyIsSpace (c : Char) : Bool :=
  c = ' ' || c = '\t' || c = '\n' || c = '\r' || c = '\x0b' || c = '\x0c'

/-- Python `str.strip()`: drop whitespace from both ends. -/
def pyStrip (s : String) : String :=
  ⟨((s.data.dropWhile pyIsSpace).reverse.dropWhile pyIsSpace).reverse⟩

/-- Number of whitespace-separated words, i.e. `len(s.split())` in Python. -/
def pyWordCount (s : String) : Nat :=
  ((s.data.splitOnP pyIsSpace).filter (· ≠ [])).length

/-! ## Transliteration (`transliterate_to_latin`, main.py:380) -/

/-- The `cyrillic_to_latin` dict literal from `transliterate_to_latin`. -/
def cyrillic_to_latin_table : List (Char × String) :=
  [('а', "a"), ('б', "b"), ('в', "v"), ('г', "g"), ('д', "d"), ('е', "e"),
   ('ё', "yo"), ('ж', "zh"), ('з', "z"), ('и', "i"), ('й', "y"), ('к', "k"),
   ('л', "l"), ('м', "m"), ('н', "n"), ('о', "o"), ('п', "p"), ('р', "r"),
   ('с', "s"), ('т', "t"), ('у', "u"), ('ф', "f"), ('х', "h"), ('ц', "ts"),
   ('ч', "ch"), ('ш', "sh"), ('щ', "sch"), ('ъ', ""), ('ы', "y"), ('ь', ""),
   ('э', "e"), ('ю', "yu"), ('я', "ya")]

/-- Dict lookup `cyrillic_to_latin.get(char)`. -/
def cyrillic_to_latin (c : Char) : Option String :=
  (cyrillic_to_latin_table.find? (fun p => p.1 == c)).map (·.2)

/-- Contribution of one (already lower-cased) character to the result of
`transliterate_to_latin`: the table image, a pass-through for other
alphanumerics, or nothing. -/
def translitPiece (c : Char) : List Char :=
  match cyrillic_to_latin c with
  | some r => r.data
  | none => if pyIsAlnum c then [c] else []

/-- `transliterate_to_latin` (main.py:380): lower-case the input, map
characters through the `cyrillic_to_latin` table, pass other alphanumerics
through, drop the rest. -/
def transliterate_to_latin (text : String) : String :=
  ⟨((pyLower text).data.map translitPiece).flatten⟩

example : transliterate_to_latin "Тестовая1" = "testovaya1" := by decide
example : transliterate_to_latin "Лето" = "leto" := by decide

/-! ## Character-level lemmas -/

theorem char_eq_of_toNat_eq {c d : Char} (h : c.toNat = d.toNat) : c = d :=
  Char.eq_of_val_eq (UInt32.ext h)

theorem char_toNat_lt (c : Char) : c.toNat < 1114112 := by
  have h := c.valid
  rcases h with h | ⟨h1, h2⟩ <;> (change c.val.toNat < _) <;> omega

theorem chr_toNat {n : Nat} (h : n < 55296) : (Char.ofNat n).toNat = n := by
  unfold Char.ofNat
  rw [dif_pos (Or.inl h)]
  rfl

/-- Nat-level mirror of `pyLowerChar`, used to reason about code points. -/
def natLower (n : Nat) : Nat :=
  if 0x41 ≤ n ∧ n ≤ 0x5A then n + 32
  else if 0xC0 ≤ n ∧ n ≤ 0xDE ∧ n ≠ 0xD7 then n + 32
  else if 0x400 ≤ n ∧ n ≤ 0x40F then n + 0x50
  else if 0x410 ≤ n ∧ n ≤ 0x42F then n + 0x20
  else n

theorem pyLowerChar_toNat (c : Char) : (pyLowerChar c).toNat = natLower c.toNat := by
  unfold pyLowerChar natLower
  split_ifs <;> first | rfl | (apply chr_toNat; omega)

theorem natLower_idem (n : Nat) : natLower (natLower n) = natLower n := by
  unfold natLower
  split_ifs <;> omega

theorem pyLowerChar_idem (c : Char) : pyLowerChar (pyLowerChar c) = pyLowerChar c := by
  apply char_eq_of_toNat_eq
  rw [pyLowerChar_toNat, pyLowerChar_toNat, natLower_idem]

theorem cyr_table_keys_large : ∀ p ∈ cyrillic_to_latin_table, 0x430 ≤ p.1.toNat := by decide

theorem cyr_none_of_small {c : Char} (h : c.toNat < 0x430) : cyrillic_to_latin c = none := by
  unfold cyrillic_to_latin
  rw [List.find?_eq_none.mpr, Option.map_none']
  intro p hp
  simp only [beq_iff_eq]
  intro he
  have := cyr_table_keys_large p hp
  rw [he] at this
  omega

theorem cyr_table_stable :
    ∀ p ∈ cyrillic_to_latin_table, ∀ c' ∈ p.2.data,
      pyLowerChar c' = c' ∧ translitPiece c' = [c'] := by decide

theorem cyr_some_stable {c : Char} {r : String} (h : cyrillic_to_latin c = some r) :
    ∀ c' ∈ r.data, pyLowerChar c' = c' ∧ translitPiece c' = [c'] := by
  unfold cyrillic_to_latin at h
  rcases Option.map_eq_some'.mp h with ⟨p, hp, hr⟩
  subst hr
  exact cyr_table_stable p (List.mem_of_find?_eq_some hp)

theorem translitPiece_stable (c : Char) :
    ∀ c' ∈ translitPiece (pyLowerChar c), pyLowerChar c' = c' ∧ translitPiece c' = [c'] := by
  intro c' hc'
  unfold translitPiece at hc'
  cases hm : cyrillic_to_latin (pyLowerChar c) with
  | some r =>
    rw [hm] at hc'
    exact cyr_some_stable hm c' hc'
  | none =>
    rw [hm] at hc'
    by_cases ha : pyIsAlnum (pyLowerChar c) = true
    · rw [if_pos ha] at hc'
      rcases List.mem_singleton.mp hc' with rfl
      refine ⟨pyLowerChar_idem c, ?_⟩
      unfold translitPiece
      rw [hm, if_pos ha]
    · simp only [ha, if_neg, Bool.false_eq_true, if_false] at hc'
      exact absurd hc' (List.not_mem_nil c')

theorem flatten_map_stable (l : List Char)
    (h : ∀ x ∈ l, translitPiece (pyLowerChar x) = [x]) :
    ((l.map pyLowerChar).map translitPiece).flatten = l := by
  induction l with
  | nil => rfl
  | cons a t ih =>
    have ha := h a (List.mem_cons_self a t)
    simp only [List.map_cons, List.flatten_cons, ha]
    rw [ih (fun x hx => h x (List.mem_cons_of_mem a hx))]
    rfl

/-- `transliterate_to_latin` is idempotent. -/
theorem transliterate_to_latin_idem (s : String) :
    transliterate_to_latin (transliterate_to_latin s) = transliterate_to_latin s := by
  unfold transliterate_to_latin pyLower
  apply congrArg String.mk
  apply flatten_map_stable
  intro x hx
  rcases List.mem_flatten.mp hx with ⟨l', hl', hxl'⟩
  rcases List.mem_map.mp hl' with ⟨y, hy, rfl⟩
  rcases List.mem_map.mp hy with ⟨c, _, rfl⟩
  rcases translitPiece_stable c x hxl' with ⟨h1, h2⟩
  rw [h1, h2]

/-- Output alphabet check of the spec: the character is in `[a-z0-9]`. -/
def latinDigitOk (c : Char) : Bool :=
  (0x61 ≤ c.toNat && c.toNat ≤ 0x7A) || (0x30 ≤ c.toNat && c.toNat ≤ 0x39)

/-- Input characters for which the `[a-z0-9]` output guarantee holds: ASCII
plus the Cyrillic letters of the transliteration table (`а`-`я`, `А`-`Я`,
`ё`, `Ё`). -/
def basicChar (c : Char) : Bool :=
  c.toNat < 0x80 || (0x410 ≤ c.toNat && c.toNat ≤ 0x44F) ||
  c.toNat = 0x401 || c.toNat = 0x451

theorem mem_of_toNat_mem {c : Char} {l : List Char} (h : c.toNat ∈ l.map Char.toNat) :
    c ∈ l := by
  induction l with
  | nil => exact absurd h (List.not_mem_nil _)
  | cons d t ih =>
    rw [List.map_cons] at h
    rcases List.mem_cons.mp h with he | ht
    · exact List.mem_cons.mpr (Or.inl (char_eq_of_toNat_eq he))
    · exact List.mem_cons.mpr (Or.inr (ih ht))

theorem cyr_keys_piece_ok :
    ∀ c ∈ cyrillic_to_latin_table.map Prod.fst, ∀ c' ∈ translitPiece c,
      latinDigitOk c' = true := by decide

theorem mem_cyr_keys {c : Char}
    (h : (0x430 ≤ c.toNat ∧ c.toNat ≤ 0x44F) ∨ c.toNat = 0x451) :
    c ∈ cyrillic_to_latin_table.map Prod.fst := by
  apply mem_of_toNat_mem
  rw [show (cyrillic_to_latin_table.map Prod.fst).map Char.toNat =
    [1072, 1073, 1074, 1075, 1076, 1077, 1105, 1078, 1079, 1080, 1081, 1082,
     1083, 1084, 1085, 1086, 1087, 1088, 1089, 1090, 1091, 1092, 1093, 1094,
     1095, 1096, 1097, 1098, 1099, 1100, 1101, 1102, 1103] from rfl]
  simp only [List.mem_cons, List.not_mem_nil, or_false]
  omega

theorem ascii_piece_ok {c : Char} (h : c.toNat < 0x80) :
    ∀ c' ∈ translitPiece (pyLowerChar c), latinDigitOk c' = true := by
  intro c' hc'
  have hl : (pyLowerChar c).toNat = natLower c.toNat := pyLowerChar_toNat c
  have hsm : (pyLowerChar c).toNat < 0x430 := by
    rw [hl]; unfold natLower; split_ifs <;> omega
  unfold translitPiece at hc'
  rw [cyr_none_of_small hsm] at hc'
  by_cases ha : pyIsAlnum (pyLowerChar c) = true
  · rw [if_pos ha] at hc'
    rcases List.mem_singleton.mp hc' with rfl
    unfold pyIsAlnum at ha
    unfold latinDigitOk
    simp only [Bool.or_eq_true, Bool.and_eq_true, decide_eq_true_eq] at ha ⊢
    rw [hl] at ha ⊢
    unfold natLower at ha ⊢
    split_ifs at ha ⊢ <;> omega
  · simp only [ha, Bool.false_eq_true, if_false] at hc'
    exact absurd hc' (List.not_mem_nil c')

theorem cyr_piece_ok {c : Char}
    (h : (0x410 ≤ c.toNat ∧ c.toNat ≤ 0x44F) ∨ c.toNat = 0x401 ∨ c.toNat = 0x451) :
    ∀ c' ∈ translitPiece (pyLowerChar c), latinDigitOk c' = true := by
  have hdom : (0x430 ≤ (pyLowerChar c).toNat ∧ (pyLowerChar c).toNat ≤ 0x44F) ∨
      (pyLowerChar c).toNat = 0x451 := by
    rw [pyLowerChar_toNat]; unfold natLower; split_ifs <;> omega
  exact cyr_keys_piece_ok _ (mem_cyr_keys hdom)

theorem translit_charset {s : String} (h : ∀ c ∈ s.data, basicChar c = true) :
    ∀ c' ∈ (transliterate_to_latin s).data, latinDigitOk c' = true := by
  intro c' hc'
  unfold transliterate_to_latin pyLower at hc'
  rcases List.mem_flatten.mp hc' with ⟨l', hl', hxl'⟩
  rcases List.mem_map.mp hl' with ⟨y, hy, rfl⟩
  rcases List.mem_map.mp hy with ⟨c, hcs, rfl⟩
  have hb := h c hcs
  unfold basicChar at hb
  simp only [Bool.or_eq_true, Bool.and_eq_true, decide_eq_true_eq] at hb
  rcases hb with ((hb | hb) | hb) | hb
  · exact ascii_piece_ok hb c' hxl'
  · exact cyr_piece_ok (Or.inl hb) c' hxl'
  · exact cyr_piece_ok (Or.inr (Or.inl hb)) c' hxl'
  · exact cyr_piece_ok (Or.inr (Or.inr hb)) c' hxl'

/-- C5 counterexample: on input `"é"` (a single non-Cyrillic Unicode
letter), `transliterate_to_latin` passes the character through, so the
output contains a character outside `[a-z0-9]`, refuting the claim that
every output character lies in `[a-z0-9]` for every input string. -/
theorem c5_counterexample :
    ¬ ∀ c ∈ (transliterate_to_latin "é").data, latinDigitOk c = true := by decide

/-- C5 (amended): `transliterate_to_latin` is total (it is a Lean function),
idempotent on every input, maps `"Тестовая1"` to `"testovaya1"`, and every
output character lies in `[a-z0-9]` for inputs made of ASCII characters and
the Cyrillic letters covered by its table (the unrestricted `[a-z0-9]` claim
fails: other Unicode alphanumerics such as `é` pass through). -/
theorem c5_transliterate_props :
    (∀ s, transliterate_to_latin (transliterate_to_latin s) = transliterate_to_latin s)
    ∧ transliterate_to_latin "Тестовая1" = "testovaya1"
    ∧ ∀ s, (∀ c ∈ s.data, basicChar c = true) →
        ∀ c' ∈ (transliterate_to_latin s).data, latinDigitOk c' = true :=
  ⟨transliterate_to_latin_idem, by decide, fun _ h => translit_charset h⟩

/-- Witness for `c5_transliterate_props` at the concrete input `"Тестовая1"`. -/
theorem c5_transliterate_props_witness : latinDigitOk 't' = true :=
  c5_transliterate_props.2.2 "Тестовая1" (by decide) 't' (by decide)

/-! ## List and string search helpers -/

/-- `pre` is a leading piece of `s` (Python `str.startswith`). -/
def strStarts (pre s : String) : Bool := pre.data.isPrefixOf s.data

/-- `sub` occurs inside `l` (Python `in` on strings). -/
def hasSub (sub : List Char) : List Char → Bool
  | [] => sub.isEmpty
  | c :: rest => sub.isPrefixOf (c :: rest) || hasSub sub rest

/-- Index of the first occurrence of `sub` in `l` (Python `str.find`). -/
def findSub (sub : List Char) : List Char → Option Nat
  | [] => if sub.isEmpty then some 0 else none
  | c :: rest =>
    if sub.isPrefixOf (c :: rest) then some 0
    else (findSub sub rest).map (· + 1)

/-- Split at the first occurrence of character `c` (Python `str.split(c, 1)`),
returning the pieces before and after it when present. -/
def splitAtFirst (l : List Char) (c : Char) : Option (List Char × List Char) :=
  match l.findIdx? (· == c) with
  | some i => some (l.take i, l.drop (i + 1))
  | none => none

/-- Index of the last occurrence of `c` in `l` (Python `str.rfind`). -/
def lastIdxOf (l : List Char) (c : Char) : Option Nat :=
  (l.reverse.findIdx? (· == c)).map (fun j => l.length - 1 - j)

/-- First occurrence of `c` at an index `≥ start` (Python `str.find(c, start)`). -/
def findFrom (l : List Char) (c : Char) (start : Nat) : Option Nat :=
  ((l.drop start).findIdx? (· == c)).map (· + start)

/-- Python `str.replace(a, b)` for single characters. -/
def pyReplaceChar (a b : Char) (s : String) : String :=
  ⟨s.data.map (fun c => if c == a then b else c)⟩

/-- `'sep'.join(parts)`. -/
def joinSep (sep : String) : List String → String
  | [] => ""
  | x :: xs => xs.foldl (fun acc y => acc ++ sep ++ y) x

/-! ## `urllib.parse.quote` / `unquote` -/

/-- Upper-case hex digit, as `quote` emits. -/
def hexDigit (n : Nat) : Char :=
  if n < 10 then Char.ofNat (0x30 + n) else Char.ofNat (0x37 + n)

/-- UTF-8 bytes of a code point. -/
def utf8Bytes (n : Nat) : List Nat :=
  if n < 0x80 then [n]
  else if n < 0x800 then [0xC0 + n / 64, 0x80 + n % 64]
  else if n < 0x10000 then [0xE0 + n / 4096, 0x80 + (n / 64) % 64, 0x80 + n % 64]
  else [0xF0 + n / 262144, 0x80 + (n / 4096) % 64, 0x80 + (n / 64) % 64, 0x80 + n % 64]

/-- Characters `quote` never escapes (`always_safe`), plus the default
`safe='/'`. -/
def quoteSafe (c : Char) : Bool :=
  (0x30 ≤ c.toNat && c.toNat ≤ 0x39) || (0x41 ≤ c.toNat && c.toNat ≤ 0x5A) ||
  (0x61 ≤ c.toNat && c.toNat ≤ 0x7A) ||
  c == '_' || c == '.' || c == '-' || c == '~' || c == '/'

/-- `urllib.parse.quote(s)` with the default `safe='/'`: safe characters are
kept, everything else is percent-encoded byte-wise (UTF-8, upper-case hex). -/
def pyQuote (s : String) : String :=
  ⟨(s.data.map (fun c =>
    if quoteSafe c then [c]
    else ((utf8Bytes c.toNat).map (fun b => ['%', hexDigit (b / 16), hexDigit (b % 16)])).flatten)).flatten⟩

/-- Hex digit value for `unquote`. -/
def hexVal (c : Char) : Option Nat :=
  if 0x30 ≤ c.toNat ∧ c.toNat ≤ 0x39 then some (c.toNat - 0x30)
  else if 0x41 ≤ c.toNat ∧ c.toNat ≤ 0x46 then some (c.toNat - 0x37)
  else if 0x61 ≤ c.toNat ∧ c.toNat ≤ 0x66 then some (c.toNat - 0x57)
  else none

/-- `urllib.parse.unquote` restricted to ASCII escapes: `%XX` with `XX < 80`
is decoded, anything else is kept literally.  (The program only ever unquotes
values that re-enter `pyQuote`, and the claims exercise no multi-byte
escapes.) -/
def pyUnquoteChars : List Char → List Char
  | [] => []
  | '%' :: a :: b :: rest =>
    match hexVal a, hexVal b with
    | some x, some y =>
      if 16 * x + y < 0x80 then Char.ofNat (16 * x + y) :: pyUnquoteChars rest
      else '%' :: pyUnquoteChars (a :: b :: rest)
    | _, _ => '%' :: pyUnquoteChars (a :: b :: rest)
  | c :: rest => c :: pyUnquoteChars rest

def pyUnquote (s : String) : String := ⟨pyUnquoteChars s.data⟩

example : pyQuote "hello world" = "hello%20world" := by decide
example : pyQuote "a/b:c?d&e=f" = "a/b%3Ac%3Fd%26e%3Df" := by decide
example : pyUnquote "a%20b" = "a b" := by decide

/-! ## `urllib.parse.urlparse` and `parse_qs` -/

/-- Result of `urllib.parse.urlparse`. -/
structure PyUrl where
  scheme : String
  netloc : String
  path : String
  params : String
  query : String
  fragment : String
deriving DecidableEq

/-- Characters allowed in a URL scheme (`scheme_chars`). -/
def isSchemeChar (c : Char) : Bool :=
  c.isAlpha || c.isDigit || c == '+' || c == '-' || c == '.'

/-- `urlsplit`'s scheme step: split off `scheme:` when the prefix is a valid
scheme name, lower-casing it. -/
def splitScheme (l : List Char) : String × List Char :=
  match l.findIdx? (· == ':') with
  | some i =>
    if decide (0 < i) && (l.head?.map Char.isAlpha).getD false
        && (l.take i).all isSchemeChar then
      (⟨(l.take i).map pyLowerChar⟩, l.drop (i + 1))
    else ("", l)
  | none => ("", l)

/-- `urlsplit`'s netloc step: after a leading `//`, the netloc extends to the
first `/`, `?` or `#`. -/
def splitNetloc (l : List Char) : String × List Char :=
  match l with
  | '/' :: '/' :: rest =>
    (⟨rest.takeWhile (fun c => !(c == '/' || c == '?' || c == '#'))⟩,
     rest.dropWhile (fun c => !(c == '/' || c == '?' || c == '#')))
  | _ => ("", l)

/-- `urlparse`'s `_splitparams`: split `;params` off the last path segment. -/
def splitParams (l : List Char) : List Char × String :=
  if '/' ∈ l then
    match findFrom l ';' ((lastIdxOf l '/').getD 0) with
    | some i => (l.take i, ⟨l.drop (i + 1)⟩)
    | none => (l, "")
  else
    match l.findIdx? (· == ';') with
    | some i => (l.take i, ⟨l.drop (i + 1)⟩)
    | none => (l, "")

/-- `urllib.parse.urlparse` (scheme, netloc, fragment, query, params splits,
in CPython's order). -/
def pyUrlparse (url : String) : PyUrl :=
  let (scheme, l1) := splitScheme url.data
  let (netloc, l2) := splitNetloc l1
  let (l3, fragment) :=
    match splitAtFirst l2 '#' with
    | some (a, b) => (a, (⟨b⟩ : String))
    | none => (l2, "")
  let (l4, query) :=
    match splitAtFirst l3 '?' with
    | some (a, b) => (a, (⟨b⟩ : String))
    | none => (l3, "")
  let (l5, params) := if ';' ∈ l4 then splitParams l4 else (l4, "")
  ⟨scheme, netloc, ⟨l5⟩, params, query, fragment⟩

/-- One `name=value` pair of `parse_qsl`: `None` when the pair is dropped. -/
def qsPair (keepBlank : Bool) (nv : String) : Option (String × String) :=
  if nv = "" then none
  else
    let unq := fun (x : String) => pyUnquote (pyReplaceChar '+' ' ' x)
    match splitAtFirst nv.data '=' with
    | some (n, v) =>
      if v ≠ [] ∨ keepBlank then some (unq ⟨n⟩, unq ⟨v⟩) else none
    | none => if keepBlank then some (unq nv, "") else none

/-- Split on a separator character (Python `str.split(sep)`). -/
def splitOnChar (c : Char) : List Char → List (List Char)
  | [] => [[]]
  | x :: rest =>
    if x == c then [] :: splitOnChar c rest
    else
      match splitOnChar c rest with
      | h :: t => (x :: h) :: t
      | [] => [[x]]

/-- `urllib.parse.parse_qsl(qs, keep_blank_values=keepBlank)`. -/
def parse_qsl (qs : String) (keepBlank : Bool) : List (String × String) :=
  ((splitOnChar '&' qs.data).map (fun l => (⟨l⟩ : String))).filterMap (qsPair keepBlank)

/-- Fold one pair into the insertion-ordered multi-dict of `parse_qs`. -/
def qsInsert (acc : List (String × List String)) (kv : String × String) :
    List (String × List String) :=
  if acc.any (fun e => e.1 == kv.1) then
    acc.map (fun e => if e.1 == kv.1 then (e.1, e.2 ++ [kv.2]) else e)
  else acc ++ [(kv.1, [kv.2])]

/-- `urllib.parse.parse_qs(qs, keep_blank_values=keepBlank)` as an
insertion-ordered association list. -/
def parse_qs (qs : String) (keepBlank : Bool) : List (String × List String) :=
  (parse_qsl qs keepBlank).foldl qsInsert []

/-- Dict lookup on the result of `parse_qs`. -/
def qsLookup (qp : List (String × List String)) (k : String) : Option (List String) :=
  (qp.find? (fun e => e.1 == k)).map (·.2)

example : pyUrlparse "https://x.com/?utm_source=keep" =
  ⟨"https", "x.com", "/", "", "utm_source=keep", ""⟩ := by decide
example : pyUrlparse "https://eda.yandex/moscow/r/rest?placeSlug=abc" =
  ⟨"https", "eda.yandex", "/moscow/r/rest", "", "placeSlug=abc", ""⟩ := by decide
example : pyUrlparse "notaurl" = ⟨"", "", "notaurl", "", "", ""⟩ := by decide
example : pyUrlparse "https://x.com/a;b?q=1#f" = ⟨"https", "x.com", "/a", "b", "q=1", "f"⟩ := by decide
example : parse_qs "a=1&a=2&b" true = [("a", ["1", "2"]), ("b", [""])] := by decide
example : parse_qs "a=&b=2" true = [("a", [""]), ("b", ["2"])] := by decide
example : parse_qs "placeSlug=abc" false = [("placeSlug", ["abc"])] := by decide

/-- `is_valid_url` (main.py:401): scheme and netloc must both be nonempty. -/
def is_valid_url (url : String) : Bool :=
  (pyUrlparse url).scheme ≠ "" && (pyUrlparse url).netloc ≠ ""

example : is_valid_url "https://ya.ru/x" = true := by decide
example : is_valid_url "notaurl" = false := by decide
example : is_valid_url "http:///path" = false := by decide

/-! ## `normalize_desktop_url` (main.py:410) -/

/-- The UTM-injection step of `normalize_desktop_url`: add `utm_source` and
`utm_campaign` only when absent (existing values are never overwritten). -/
def injectUtm (qp : List (String × List String)) (campaign adgroup : String) :
    List (String × List String) :=
  let qp1 := if (qsLookup qp "utm_source").isSome then qp
             else qp ++ [("utm_source", [campaign])]
  if (qsLookup qp1 "utm_campaign").isSome then qp1
  else qp1 ++ [("utm_campaign", [adgroup])]

/-- Rebuild the query parts: `key=quote(value)`, or bare `key` for a blank
value. -/
def utmQueryParts (qp : List (String × List String)) : List String :=
  (qp.map (fun e => e.2.map (fun v => if v ≠ "" then e.1 ++ "=" ++ pyQuote v else e.1))).flatten

/-- `normalize_desktop_url` (main.py:410). -/
def normalize_desktop_url (desktop_url : Option String) (campaign adgroup : String) :
    Option String :=
  match desktop_url with
  | none => none
  | some u =>
    if u = "" then none
    else
      let p := pyUrlparse u
      let qp := injectUtm (parse_qs p.query true) campaign adgroup
      let parts := utmQueryParts qp
      if parts ≠ [] then
        some (p.scheme ++ "://" ++ p.netloc ++ p.path ++ "?" ++ joinSep "&" parts ++
          (if p.fragment ≠ "" then "#" ++ p.fragment else ""))
      else some u

example : normalize_desktop_url (some "https://x.com/?utm_source=keep") "C" "A" =
  some "https://x.com/?utm_source=keep&utm_campaign=A" := by decide
example : normalize_desktop_url (some "https://x.com/") "C" "A" =
  some "https://x.com/?utm_source=C&utm_campaign=A" := by decide
example : normalize_desktop_url none "C" "A" = none := by decide

theorem qsLookup_append_of_some {qp : List (String × List String)} {k : String}
    {vs : List String} (h : qsLookup qp k = some vs) (e : String × List String) :
    qsLookup (qp ++ [e]) k = some vs := by
  unfold qsLookup at h ⊢
  rcases Option.map_eq_some'.mp h with ⟨p, hp, hv⟩
  rw [List.find?_append, hp]
  simp [hv]

theorem qsLookup_append_of_none {qp : List (String × List String)} {k : String}
    (h : qsLookup qp k = none) (v : List String) :
    qsLookup (qp ++ [(k, v)]) k = some v := by
  unfold qsLookup at h ⊢
  simp only [Option.map_eq_none'] at h
  rw [List.find?_append, h]
  simp

theorem qsLookup_append_of_ne {qp : List (String × List String)} {k k' : String}
    (hne : k' ≠ k) (v : List String) :
    qsLookup (qp ++ [(k', v)]) k = qsLookup qp k := by
  unfold qsLookup
  rw [List.find?_append]
  cases hf : qp.find? (fun e => e.1 == k) with
  | some p => simp
  | none => simp [hne]

theorem injectUtm_source_of_some {qp : List (String × List String)} {vs : List String}
    (c a : String) (h : qsLookup qp "utm_source" = some vs) :
    qsLookup (injectUtm qp c a) "utm_source" = some vs := by
  unfold injectUtm
  rw [if_pos (show (qsLookup qp "utm_source").isSome = true by rw [h]; rfl)]
  by_cases hB : (qsLookup qp "utm_campaign").isSome = true
  · rw [if_pos hB]; exact h
  · rw [if_neg hB]; exact qsLookup_append_of_some h _

theorem injectUtm_source_of_none {qp : List (String × List String)}
    (c a : String) (h : qsLookup qp "utm_source" = none) :
    qsLookup (injectUtm qp c a) "utm_source" = some [c] := by
  unfold injectUtm
  rw [if_neg (show ¬ (qsLookup qp "utm_source").isSome = true by rw [h]; simp)]
  have h1 := qsLookup_append_of_none h [c]
  by_cases hB : (qsLookup (qp ++ [("utm_source", [c])]) "utm_campaign").isSome = true
  · rw [if_pos hB]; exact h1
  · rw [if_neg hB]; exact qsLookup_append_of_some h1 _

theorem injectUtm_campaign_of_some {qp : List (String × List String)} {vs : List String}
    (c a : String) (h : qsLookup qp "utm_campaign" = some vs) :
    qsLookup (injectUtm qp c a) "utm_campaign" = some vs := by
  unfold injectUtm
  by_cases hA : (qsLookup qp "utm_source").isSome = true
  · rw [if_pos hA, if_pos (show (qsLookup qp "utm_campaign").isSome = true by rw [h]; rfl)]
    exact h
  · rw [if_neg hA]
    have h1 : qsLookup (qp ++ [("utm_source", [c])]) "utm_campaign" = some vs := by
      rw [qsLookup_append_of_ne (by decide) [c]]; exact h
    rw [if_pos (by rw [h1]; rfl)]
    exact h1

theorem injectUtm_campaign_of_none {qp : List (String × List String)}
    (c a : String) (h : qsLookup qp "utm_campaign" = none) :
    qsLookup (injectUtm qp c a) "utm_campaign" = some [a] := by
  unfold injectUtm
  by_cases hA : (qsLookup qp "utm_source").isSome = true
  · rw [if_pos hA, if_neg (show ¬ (qsLookup qp "utm_campaign").isSome = true by rw [h]; simp)]
    exact qsLookup_append_of_none h [a]
  · rw [if_neg hA]
    have h1 : qsLookup (qp ++ [("utm_source", [c])]) "utm_campaign" = none := by
      rw [qsLookup_append_of_ne (by decide) [c]]; exact h
    rw [if_neg (by rw [h1]; simp)]
    exact qsLookup_append_of_none h1 [a]

/-- C4: `normalize_desktop_url` never overwrites an existing `utm_source` /
`utm_campaign` value: on the query dict that `normalize_desktop_url` builds
from the parsed URL, the injection step preserves present keys verbatim and
injects the campaign/adgroup values only for absent keys; end to end,
`https://x.com/?utm_source=keep` keeps `utm_source=keep`. -/
theorem c4_normalize_desktop_url :
    (∀ u c a vs, qsLookup (parse_qs (pyUrlparse u).query true) "utm_source" = some vs →
        qsLookup (injectUtm (parse_qs (pyUrlparse u).query true) c a) "utm_source" = some vs)
    ∧ (∀ u c a vs, qsLookup (parse_qs (pyUrlparse u).query true) "utm_campaign" = some vs →
        qsLookup (injectUtm (parse_qs (pyUrlparse u).query true) c a) "utm_campaign" = some vs)
    ∧ (∀ u c a, qsLookup (parse_qs (pyUrlparse u).query true) "utm_source" = none →
        qsLookup (injectUtm (parse_qs (pyUrlparse u).query true) c a) "utm_source" = some [c])
    ∧ (∀ u c a, qsLookup (parse_qs (pyUrlparse u).query true) "utm_campaign" = none →
        qsLookup (injectUtm (parse_qs (pyUrlparse u).query true) c a) "utm_campaign" = some [a])
    ∧ normalize_desktop_url (some "https://x.com/?utm_source=keep") "20250609_bot" "leto" =
        some "https://x.com/?utm_source=keep&utm_campaign=leto" :=
  ⟨fun _ c a _ h => injectUtm_source_of_some c a h,
   fun _ c a _ h => injectUtm_campaign_of_some c a h,
   fun _ c a h => injectUtm_source_of_none c a h,
   fun _ c a h => injectUtm_campaign_of_none c a h,
   by decide⟩

/-- Witness for `c4_normalize_desktop_url` on `https://x.com/?utm_source=keep`. -/
theorem c4_normalize_desktop_url_witness :
    qsLookup (injectUtm
      (parse_qs (pyUrlparse "https://x.com/?utm_source=keep").query true) "C" "A")
      "utm_source" = some ["keep"] :=
  c4_normalize_desktop_url.1 "https://x.com/?utm_source=keep" "C" "A" ["keep"] (by decide)

/-! ## App catalog and per-app tables (main.py:28-224) -/

def BACK_BUTTON_TEXT : String := "Назад"
def GO_APP_NAME : String := "Go"
def OPEN_APP_GO : String := "Просто открыть приложение"
def OPEN_APP_OTHER : String := "Просто открыть приложение"

def APP_ORDER : List String := ["Драйв", "Еда", "Про", "Go", "Yango", "Yango Pro"]

/-- `APP_CATALOG`: application name to (scheme, base_url). -/
def APP_CATALOG (n : String) : Option (String × String) :=
  if n = "Драйв" then some ("yandexdrive://", "https://drive.go.link/")
  else if n = "Еда" then some ("eda.yandex://", "https://eats.go.link/")
  else if n = "Про" then some ("taximeter://", "https://lecj.adj.st/")
  else if n = "Go" then some ("yandextaxi://", "https://yandex.go.link/")
  else if n = "Yango" then some ("yandexyango://", "https://yango.go.link/")
  else if n = "Yango Pro" then some ("taximeter://", "https://ubq5.adj.st/")
  else none

def APP_OPTIONS : List String := APP_ORDER
def REATTRIBUTION_OPTIONS : List String := ["Только неактивных от 30 дней", "Реатрибуцировать всех"]
def TEMP_ATTR_OPTIONS : List String := ["Без ограничений", "30 дней"]
def ACTION_TYPE_OPTIONS : List String :=
  [OPEN_APP_GO, "Сервис", "Промокод", "Тариф", "Баннер", "Свой диплинк"]
def SERVICE_OPTIONS : List String := ["Еда", "Лавка", "Драйв", "Маркет", "Самокаты"]

/-- `get_app_name_or_default` (main.py:135). -/
def get_app_name_or_default (app_name : Option String) : String :=
  match app_name with
  | some n => if (APP_CATALOG n).isSome then n else APP_ORDER.headD GO_APP_NAME
  | none => APP_ORDER.headD GO_APP_NAME

/-- The catalog entry of `GO_APP_NAME`, used as the (unreachable) fallback of
`APP_CATALOG.get(app_name, APP_CATALOG[GO_APP_NAME])`. -/
def goEntry : String × String := ("yandextaxi://", "https://yandex.go.link/")

/-- `get_app_scheme` (main.py:141). -/
def get_app_scheme (app_name : Option String) : String :=
  ((APP_CATALOG (get_app_name_or_default app_name)).getD goEntry).1

/-- `get_app_base_url` (main.py:146). -/
def get_app_base_url (app_name : Option String) : String :=
  ((APP_CATALOG (get_app_name_or_default app_name)).getD goEntry).2

/-- `get_adj_t_map` (main.py:151): per-app dict from
(reattribution, temporary attribution) to the tracking-template id, as an
insertion-ordered association list. -/
def get_adj_t_map (app_name : Option String) : List ((String × String) × String) :=
  let n := get_app_name_or_default app_name
  if n = GO_APP_NAME then
    [(("Реатрибуцировать всех", "Без ограничений"), "1pj8ktrc_1pksjytf"),
     (("Только неактивных от 30 дней", "Без ограничений"), "1md8ai4n_1mztz3nz"),
     (("Реатрибуцировать всех", "30 дней"), "1p5j0f1z_1pk9ju0y"),
     (("Только неактивных от 30 дней", "30 дней"), "1pi2vjj3_1ppvctfa")]
  else if n = "Драйв" then
    [(("Только неактивных от 30 дней", "Без ограничений"), "1w1fyjuh"),
     (("Только неактивных от 30 дней", "30 дней"), "1w6rk3g5"),
     (("Реатрибуцировать всех", "Без ограничений"), "1w1h2sce"),
     (("Реатрибуцировать всех", "30 дней"), "1w1k1t8b")]
  else if n = "Еда" then
    [(("Реатрибуцировать всех", "Без ограничений"), "1wj02w0e_1woudcyr"),
     (("Только неактивных от 30 дней", "Без ограничений"), "1w72129e_1ww1am8e"),
     (("Реатрибуцировать всех", "30 дней"), "1w1uhauh_1w3dtcvs"),
     (("Только неактивных от 30 дней", "30 дней"), "1wwnx9c4_1wybzoum")]
  else if n = "Про" then
    [(("Только неактивных от 30 дней", "Без ограничений"), "1w1w0cie_1wf70eky"),
     (("Только неактивных от 30 дней", "30 дней"), "1whu80dy_1wtdlfwn"),
     (("Реатрибуцировать всех", "Без ограничений"), "1w7uoyoq_1wsa2db8"),
     (("Реатрибуцировать всех", "30 дней"), "1w7ztrws_1wqmugs1")]
  else if n = "Yango" then
    [(("Только неактивных от 30 дней", "Без ограничений"), "1wrqmlfd_1wtbr2vt"),
     (("Только неактивных от 30 дней", "30 дней"), "1w3dkzxf_1wksmxnr"),
     (("Реатрибуцировать всех", "Без ограничений"), "1wlyrbe7_1woa6n8p"),
     (("Реатрибуцировать всех", "30 дней"), "1w6zxhcl_1wfkbjtw")]
  else if n = "Yango Pro" then
    [(("Только неактивных от 30 дней", "Без ограничений"), "1wcen01x_1wh11pd5"),
     (("Только неактивных от 30 дней", "30 дней"), "1w59mp9k_1wkp0jy5"),
     (("Реатрибуцировать всех", "Без ограничений"), "1w31vlxu_1w3aa34h"),
     (("Реатрибуцировать всех", "30 дней"), "1wxd0aln_1wzdqopt")]
  else
    [(("Реатрибуцировать всех", "Без ограничений"), "TODO_TRACKER_1"),
     (("Только неактивных от 30 дней", "Без ограничений"), "TODO_TRACKER_2"),
     (("Реатрибуцировать всех", "30 дней"), "TODO_TRACKER_3"),
     (("Только неактивных от 30 дней", "30 дней"), "TODO_TRACKER_4")]

/-- Dict lookup in an adj_t table. -/
def adjLookup (m : List ((String × String) × String)) (k : String × String) :
    Option String :=
  (m.find? (fun e => e.1 == k)).map (·.2)

/-- `next(iter(adj_t_map.values()))`: the first-listed id, `none` on an empty
table (where Python would raise `StopIteration`). -/
def firstAdjT (m : List ((String × String) × String)) : Option String :=
  m.head?.map (·.2)

/-- The composer's tracking-id resolution (main.py:462): exact tuple lookup
with fallback to the first-listed id. -/
def resolveAdjT (m : List ((String × String) × String)) (k : String × String) :
    Option String :=
  match adjLookup m k with
  | some v => some v
  | none => firstAdjT m

/-- `get_action_type_options` (main.py:204). -/
def get_action_type_options (app_name : Option String) : List String :=
  let n := get_app_name_or_default app_name
  if n = GO_APP_NAME then ACTION_TYPE_OPTIONS
  else if n = "Yango" then [OPEN_APP_OTHER, "Промокод", "Тариф", "Баннер", "Свой диплинк"]
  else if n = "Еда" then [OPEN_APP_OTHER, "Ресторан", "Свой диплинк"]
  else [OPEN_APP_OTHER, "Свой диплинк"]

/-- `get_open_app_deeplink` (main.py:215). -/
def get_open_app_deeplink (app_name : Option String) : String :=
  let n := get_app_name_or_default app_name
  let schemePref := get_app_scheme (some n)
  if n = "Про" ∨ n = "Yango Pro" then schemePref ++ "screen/main?"
  else schemePref

/-! ## The session's answer set (`state.get_data()` / `state.update_data`) -/

/-- Fields the conversation accumulates; `none` models an absent key. -/
structure SessionData where
  app : Option String := none
  reattribution : Option String := none
  temporary_attribution : Option String := none
  campaign_name : Option String := none
  action_type : Option String := none
  deeplink : Option String := none
  base_tariff_deeplink : Option String := none
  start_address : Option String := none
  desktop_url : Option String := none
deriving DecidableEq

/-! ## `build_final_link` (main.py:440) -/

/-- The scheme-stripped deeplink of the composer: the stored deeplink with the
selected app's scheme removed when it is an exact literal leading piece. -/
def strippedDeeplink (ud : SessionData) : String :=
  let schemePref := get_app_scheme (some (ud.app.getD GO_APP_NAME))
  let deeplink := ud.deeplink.getD ""
  if strStarts schemePref deeplink
  then (⟨deeplink.data.drop schemePref.data.length⟩ : String)
  else deeplink

/-- The composer's joined `key=value` tracking parameters for a given date. -/
def finalParamString (today : String) (ud : SessionData) : String :=
  let campaign_value := today ++ "_bot"
  let adgroup_value := transliterate_to_latin (ud.campaign_name.getD "")
  let reattribution := ud.reattribution.getD "Только неактивных от 30 дней"
  let temporary_attribution := ud.temporary_attribution.getD "Без ограничений"
  let adj_t := (resolveAdjT (get_adj_t_map (some (ud.app.getD GO_APP_NAME)))
    (reattribution, temporary_attribution)).getD ""
  let params := [("adj_t", adj_t), ("adj_campaign", campaign_value),
    ("adj_adgroup", adgroup_value)]
  let params :=
    match normalize_desktop_url ud.desktop_url campaign_value adgroup_value with
    | some d => params ++ [("adj_fallback", pyQuote d), ("adj_redirect_macos", pyQuote d)]
    | none => params
  joinSep "&" (params.map (fun p => p.1 ++ "=" ++ p.2))

/-- `build_final_link` (main.py:440), with the current date as a parameter. -/
def build_final_link (today : String) (ud : SessionData) : String :=
  let base_url := get_app_base_url (some (ud.app.getD GO_APP_NAME))
  let deeplink := strippedDeeplink ud
  let param_string := finalParamString today ud
  let separator := if hasSub ['?'] deeplink.data then "&" else "?"
  base_url ++ deeplink ++ separator ++ param_string

theorem strAppend_assoc (a b c : String) : (a ++ b) ++ c = a ++ (b ++ c) := by
  apply congrArg String.mk
  simp [String.data_append, List.append_assoc]

/-- C1: for every answer set and date, `build_final_link` returns
`base_url ++ stripped ++ separator ++ params`, where `stripped` removes the
selected app's scheme exactly when the stored deeplink starts with it, and
`separator` is `&` when the stripped deeplink contains `?`, else `?`. -/
theorem c1_build_final_link (today : String) (ud : SessionData) :
    build_final_link today ud =
      get_app_base_url (some (ud.app.getD GO_APP_NAME)) ++ strippedDeeplink ud ++
        (if hasSub ['?'] (strippedDeeplink ud).data then "&" else "?") ++
        finalParamString today ud
    ∧ strippedDeeplink ud =
      (if strStarts (get_app_scheme (some (ud.app.getD GO_APP_NAME))) (ud.deeplink.getD "")
       then (⟨(ud.deeplink.getD "").data.drop
         (get_app_scheme (some (ud.app.getD GO_APP_NAME))).data.length⟩ : String)
       else ud.deeplink.getD "") :=
  ⟨rfl, rfl⟩

/-- The answer set of the C2 end-to-end scenario: app Go, dormant-30-days
reattribution, unlimited window, campaign `Лето`, the open-app deeplink,
no desktop URL. -/
def c2Data : SessionData :=
  { app := some "Go", reattribution := some "Только неактивных от 30 дней",
    temporary_attribution := some "Без ограничений", campaign_name := some "Лето",
    action_type := some OPEN_APP_GO,
    deeplink := some (get_open_app_deeplink (some "Go")) }

/-- C2: the end-to-end scenario produces exactly
`https://yandex.go.link/?adj_t=1md8ai4n_1mztz3nz&adj_campaign=<today>_bot&adj_adgroup=leto`. -/
theorem c2_end_to_end (today : String) :
    build_final_link today c2Data =
      "https://yandex.go.link/?adj_t=1md8ai4n_1mztz3nz&adj_campaign=" ++ today ++
        "_bot&adj_adgroup=leto" := by
  have h1 : build_final_link today c2Data =
      "https://yandex.go.link/?adj_t=1md8ai4n_1mztz3nz&adj_campaign=" ++
        ((today ++ "_bot") ++ "&" ++ "adj_adgroup=leto") := rfl
  rw [h1, strAppend_assoc (today ++ "_bot"), strAppend_assoc today,
    ← strAppend_assoc _ today]
  rfl

theorem get_app_name_or_default_idem (a : Option String) :
    get_app_name_or_default (some (get_app_name_or_default a)) = get_app_name_or_default a := by
  unfold get_app_name_or_default
  cases a with
  | none => decide
  | some n =>
    by_cases h : (APP_CATALOG n).isSome = true
    · simp [h]
    · simp only [h, if_false, Bool.false_eq_true]
      decide

theorem adj_map_ne_nil (a : Option String) : get_adj_t_map a ≠ [] := by
  simp only [get_adj_t_map]
  split_ifs <;> simp

/-- C6: the composer's tracking-id resolution is total (never an error) and
deterministic for every app name — unknown names are first normalised to the
default app — returning the mapped id on an exact (reattribution, window) key
and the first-listed id of the app's table otherwise. -/
theorem c6_adj_t_resolution (app : Option String) (r t : String) :
    (∃ v, resolveAdjT (get_adj_t_map app) (r, t) = some v
      ∧ (adjLookup (get_adj_t_map app) (r, t) = some v
         ∨ (adjLookup (get_adj_t_map app) (r, t) = none
            ∧ firstAdjT (get_adj_t_map app) = some v)))
    ∧ get_adj_t_map app = get_adj_t_map (some (get_app_name_or_default app)) := by
  constructor
  · cases hl : adjLookup (get_adj_t_map app) (r, t) with
    | some v => exact ⟨v, by unfold resolveAdjT; rw [hl], Or.inl rfl⟩
    | none =>
      cases hh : (get_adj_t_map app).head? with
      | none => exact absurd (List.head?_eq_none_iff.mp hh) (adj_map_ne_nil app)
      | some e =>
        refine ⟨e.2, ?_, Or.inr ⟨rfl, ?_⟩⟩
        · unfold resolveAdjT firstAdjT
          rw [hl, hh]
          rfl
        · unfold firstAdjT
          rw [hh]
          rfl
  · have h := get_app_name_or_default_idem app
    unfold get_adj_t_map
    rw [h]

/-- Answer set for the C10 scenario on `Про` (open-app action). -/
def c10ProData : SessionData :=
  { app := some "Про", campaign_name := some "pro",
    action_type := some OPEN_APP_OTHER,
    deeplink := some (get_open_app_deeplink (some "Про")) }

/-- Answer set for the C10 scenario on `Yango Pro` (open-app action). -/
def c10YangoProData : SessionData :=
  { app := some "Yango Pro", campaign_name := some "pro",
    action_type := some OPEN_APP_OTHER,
    deeplink := some (get_open_app_deeplink (some "Yango Pro")) }

/-- C10: for `Про` and `Yango Pro` the open-app deeplink is the scheme plus
`screen/main?` (all other apps store the bare scheme); consequently the
stripped deeplink ends in `?`, the composer picks `&`, and the final link
contains `screen/main?&adj_t=`. -/
theorem c10_screen_main :
    get_open_app_deeplink (some "Про") = "taximeter://" ++ "screen/main?"
    ∧ get_open_app_deeplink (some "Yango Pro") = "taximeter://" ++ "screen/main?"
    ∧ (∀ a ∈ ["Драйв", "Еда", "Go", "Yango"],
        get_open_app_deeplink (some a) = get_app_scheme (some a))
    ∧ (∀ today, ∃ rest, build_final_link today c10ProData =
        "https://lecj.adj.st/screen/main?&adj_t=" ++ rest)
    ∧ (∀ today, ∃ rest, build_final_link today c10YangoProData =
        "https://ubq5.adj.st/screen/main?&adj_t=" ++ rest) :=
  ⟨rfl, rfl, by decide,
   fun today => ⟨"1w1w0cie_1wf70eky&adj_campaign=" ++
     ((today ++ "_bot") ++ "&" ++ "adj_adgroup=pro"), rfl⟩,
   fun today => ⟨"1wcen01x_1wh11pd5&adj_campaign=" ++
     ((today ++ "_bot") ++ "&" ++ "adj_adgroup=pro"), rfl⟩⟩

/-! ## Eats deeplink builders (main.py:721, main.py:742) -/

/-- `build_eats_shop_deeplink` (main.py:721). -/
def build_eats_shop_deeplink (shop_url : String) : Option String :=
  let parsed := pyUrlparse shop_url
  let host := pyLower parsed.netloc
  if ¬ (strStarts "eda.yandex" host || strStarts "eats.yandex.com" host) then none
  else if ¬ hasSub "retail".data parsed.path.data then none
  else
    let href0 : String := ⟨parsed.path.data.dropWhile (· == '/')⟩
    let href := if parsed.query ≠ "" then href0 ++ "?" ++ parsed.query else href0
    some ("yandextaxi://external?service=eats&href=" ++ pyQuote href)

/-- `build_eats_restaurant_deeplink` (main.py:742). -/
def build_eats_restaurant_deeplink (restaurant_url : String) : Option String :=
  let parsed := pyUrlparse restaurant_url
  let host := pyLower parsed.netloc
  if ¬ strStarts "eda.yandex" host then none
  else if ¬ hasSub "/r/".data parsed.path.data then none
  else
    match qsLookup (parse_qs parsed.query false) "placeSlug" with
    | some (slug :: _) => if slug = "" then none else some ("eda.yandex://restaurant/" ++ slug)
    | _ => none

example : build_eats_restaurant_deeplink "https://eda.yandex/moscow/r/rest?placeSlug=abc" =
  some "eda.yandex://restaurant/abc" := by decide
example : build_eats_shop_deeplink "https://eda.yandex/retail/shop?x=1" =
  some "yandextaxi://external?service=eats&href=retail/shop%3Fx%3D1" := by decide

/-! ## Conversation state machine (the aiogram handlers, main.py:524-1138)

Each `process_*` handler becomes a pure function from the current answer set
and the incoming message text to the next state, the next answer set, and an
outcome tag: `rejected` (validation error, re-prompt), `advanced`, `backed`
(the back button), or `terminal` (the composer ran and the session was
cleared).  `finished` models the cleared session. -/

inductive BotState where
  | waiting_for_app
  | waiting_for_reattribution
  | waiting_for_temporary_attribution
  | waiting_for_campaign
  | waiting_for_action_type
  | waiting_for_service
  | waiting_for_eats_option
  | waiting_for_eats_shop_url
  | waiting_for_eats_restaurant_url
  | waiting_for_route_start
  | waiting_for_route_end
  | waiting_for_custom_deeplink
  | waiting_for_promo_code
  | waiting_for_tariff
  | waiting_for_custom_tariff
  | waiting_for_banner_id
  | waiting_for_desktop_url
  | finished
deriving DecidableEq

inductive Outcome where
  | rejected
  | advanced
  | backed
  | terminal
  | idle
deriving DecidableEq

abbrev StepResult := BotState × SessionData × Outcome

/-- `process_app` (main.py:530). -/
def process_app (d : SessionData) (text : String) : StepResult :=
  let app_name := pyStrip text
  if app_name = BACK_BUTTON_TEXT then (.waiting_for_app, d, .backed)
  else if app_name ∈ APP_OPTIONS then
    (.waiting_for_reattribution, { d with app := some app_name }, .advanced)
  else (.waiting_for_app, d, .rejected)

/-- `process_reattribution` (main.py:551). -/
def process_reattribution (d : SessionData) (text : String) : StepResult :=
  let reattribution := pyStrip text
  if reattribution = BACK_BUTTON_TEXT then (.waiting_for_app, d, .backed)
  else if reattribution ∈ REATTRIBUTION_OPTIONS then
    (.waiting_for_temporary_attribution, { d with reattribution := some reattribution }, .advanced)
  else (.waiting_for_reattribution, d, .rejected)

/-- `process_temporary_attribution` (main.py:572). -/
def process_temporary_attribution (d : SessionData) (text : String) : StepResult :=
  let temporary_attribution := pyStrip text
  if temporary_attribution = BACK_BUTTON_TEXT then (.waiting_for_reattribution, d, .backed)
  else if temporary_attribution ∈ TEMP_ATTR_OPTIONS then
    (.waiting_for_campaign, { d with temporary_attribution := some temporary_attribution }, .advanced)
  else (.waiting_for_temporary_attribution, d, .rejected)

/-- `process_campaign` (main.py:593). -/
def process_campaign (d : SessionData) (text : String) : StepResult :=
  let campaign_name := pyStrip text
  if campaign_name = BACK_BUTTON_TEXT then (.waiting_for_temporary_attribution, d, .backed)
  else if campaign_name = "" ∨ 1 < pyWordCount campaign_name then
    (.waiting_for_campaign, d, .rejected)
  else (.waiting_for_action_type, { d with campaign_name := some campaign_name }, .advanced)

/-- `process_action_type` (main.py:611). -/
def process_action_type (d : SessionData) (text : String) : StepResult :=
  let action := pyStrip text
  if action = BACK_BUTTON_TEXT then (.waiting_for_campaign, d, .backed)
  else
    let app_name := d.app.getD GO_APP_NAME
    if action ∈ get_action_type_options (some app_name) then
      let d1 := { d with action_type := some action }
      if action = OPEN_APP_GO ∨ action = OPEN_APP_OTHER then
        (.waiting_for_desktop_url,
         { d1 with deeplink := some (get_open_app_deeplink (some app_name)) }, .advanced)
      else if action = "Сервис" then (.waiting_for_service, d1, .advanced)
      else if action = "Промокод" then (.waiting_for_promo_code, d1, .advanced)
      else if action = "Тариф" then (.waiting_for_tariff, d1, .advanced)
      else if action = "Баннер" then (.waiting_for_banner_id, d1, .advanced)
      else if action = "Ресторан" then (.waiting_for_eats_restaurant_url, d1, .advanced)
      else if action = "Свой диплинк" then (.waiting_for_custom_deeplink, d1, .advanced)
      else (.waiting_for_action_type, d1, .advanced)
    else (.waiting_for_action_type, d, .rejected)

def special_service_map : List (String × String) := [("Самокаты", "yandextaxi://scooters")]

def standard_service_map : List (String × String) :=
  [("Еда", "eats"), ("Лавка", "grocery"), ("Драйв", "drive"), ("Маркет", "market")]

/-- `process_service` (main.py:656). -/
def process_service (d : SessionData) (text : String) : StepResult :=
  let service_name := pyStrip text
  if service_name = BACK_BUTTON_TEXT then (.waiting_for_action_type, d, .backed)
  else if service_name = "Еда" then (.waiting_for_eats_option, d, .advanced)
  else
    match special_service_map.find? (fun e => e.1 == service_name) with
    | some e => (.waiting_for_desktop_url, { d with deeplink := some e.2 }, .advanced)
    | none =>
      match standard_service_map.find? (fun e => e.1 == service_name) with
      | some e =>
        (.waiting_for_desktop_url,
         { d with deeplink := some ("yandextaxi://external?service=" ++ e.2) }, .advanced)
      | none => (.waiting_for_service, d, .rejected)

/-- `process_eats_option` (main.py:697). -/
def process_eats_option (d : SessionData) (text : String) : StepResult :=
  let eats_option := pyStrip text
  if eats_option = BACK_BUTTON_TEXT then (.waiting_for_service, d, .backed)
  else if eats_option = "Главная Еды" then
    (.waiting_for_desktop_url,
     { d with deeplink := some "yandextaxi://external?service=eats" }, .advanced)
  else if eats_option = "Магазин" then (.waiting_for_eats_shop_url, d, .advanced)
  else (.waiting_for_eats_option, d, .rejected)

/-- `process_eats_shop_url` (main.py:763). -/
def process_eats_shop_url (d : SessionData) (text : String) : StepResult :=
  let shop_url := pyStrip text
  if shop_url = BACK_BUTTON_TEXT then (.waiting_for_eats_option, d, .backed)
  else
    match build_eats_shop_deeplink shop_url with
    | some dl => (.waiting_for_desktop_url, { d with deeplink := some dl }, .advanced)
    | none => (.waiting_for_eats_shop_url, d, .rejected)

/-- `process_eats_restaurant_url` (main.py:784). -/
def process_eats_restaurant_url (d : SessionData) (text : String) : StepResult :=
  let restaurant_url := pyStrip text
  if restaurant_url = BACK_BUTTON_TEXT then (.waiting_for_action_type, d, .backed)
  else
    match build_eats_restaurant_deeplink restaurant_url with
    | some dl => (.waiting_for_desktop_url, { d with deeplink := some dl }, .advanced)
    | none => (.waiting_for_eats_restaurant_url, d, .rejected)

/-- `process_route_start` (main.py:805). -/
def process_route_start (d : SessionData) (text : String) : StepResult :=
  let start_address := pyStrip text
  if start_address = BACK_BUTTON_TEXT then (.waiting_for_tariff, d, .backed)
  else
    let start_address := if pyLower start_address = "пропустить" then "" else start_address
    (.waiting_for_route_end, { d with start_address := some start_address }, .advanced)

/-- The deeplink assembled by `process_route_end` from the stored base tariff
deeplink and the route endpoints (main.py:834-866). -/
def route_deeplink (d : SessionData) (end_address : String) : String :=
  let start_address := d.start_address.getD ""
  let base_tariff_deeplink := d.base_tariff_deeplink.getD ""
  let schemePref := get_app_scheme d.app
  let route_params :=
    (if start_address ≠ "" then ["start=" ++ pyQuote start_address] else []) ++
    (if end_address ≠ "" then ["end=" ++ pyQuote end_address] else [])
  if base_tariff_deeplink ≠ "" then
    if base_tariff_deeplink = schemePref ++ "intercity_main" then
      if route_params ≠ [] then
        schemePref ++ "intercity_main?" ++ joinSep "&" route_params
      else base_tariff_deeplink
    else
      if route_params ≠ [] then
        base_tariff_deeplink ++
          (if hasSub ['?'] base_tariff_deeplink.data then "&" else "?") ++
          joinSep "&" route_params
      else base_tariff_deeplink
  else
    if route_params ≠ [] then schemePref ++ "route?" ++ joinSep "&" route_params
    else schemePref ++ "route"

/-- `process_route_end` (main.py:822). -/
def process_route_end (d : SessionData) (text : String) : StepResult :=
  let end_address := pyStrip text
  if end_address = BACK_BUTTON_TEXT then (.waiting_for_route_start, d, .backed)
  else
    let end_address := if pyLower end_address = "пропустить" then "" else end_address
    (.waiting_for_desktop_url, { d with deeplink := some (route_deeplink d end_address) },
     .advanced)

/-- `process_custom_deeplink` (main.py:872), including the `href=`
auto-encoding heuristic. -/
def process_custom_deeplink (d : SessionData) (text : String) : StepResult :=
  let deeplink := pyStrip text
  if deeplink = BACK_BUTTON_TEXT then (.waiting_for_action_type, d, .backed)
  else
    let schemePref := get_app_scheme d.app
    if ¬ strStarts schemePref deeplink then (.waiting_for_custom_deeplink, d, .rejected)
    else
      let deeplink :=
        if hasSub "href=".data deeplink.data then
          let deeplink_part := deeplink.data.drop schemePref.data.length
          match findSub "href=".data deeplink_part with
          | some href_pos =>
            let before_href : String := ⟨deeplink_part.take href_pos⟩
            let href_value : String := ⟨deeplink_part.drop (href_pos + 5)⟩
            let needs_encoding :=
              ["%20", "%3A", "%2F", "%3F", "%26", "%3D"].any
                (fun e => hasSub e.data href_value.data)
            if ¬ needs_encoding ∧
                [' ', ':', '/', '?', '&', '='].any (fun ch => hasSub [ch] href_value.data) then
              schemePref ++ before_href ++ "href=" ++ pyQuote href_value
            else deeplink
          | none => deeplink
        else deeplink
      (.waiting_for_desktop_url, { d with deeplink := some deeplink }, .advanced)

/-- `process_promo_code` (main.py:919). -/
def process_promo_code (d : SessionData) (text : String) : StepResult :=
  let promo_code := pyStrip text
  if promo_code = BACK_BUTTON_TEXT then (.waiting_for_action_type, d, .backed)
  else if promo_code = "" then (.waiting_for_promo_code, d, .rejected)
  else
    let schemePref := get_app_scheme d.app
    (.waiting_for_desktop_url,
     { d with deeplink := some (schemePref ++ "addpromocode?code=" ++ pyQuote promo_code) },
     .advanced)

/-- The `tariff_map` of `process_tariff` (main.py:950). -/
def tariff_map (schemePref : String) : List (String × String) :=
  [("Эконом", schemePref ++ "route?tariffClass=econom"),
   ("Комфорт", schemePref ++ "route?tariffClass=comfortplus"),
   ("Комфорт+", schemePref ++ "route?tariffClass=business"),
   ("Бизнес", schemePref ++ "route?tariffClass=vip&vertical=ultima"),
   ("Грузовой", schemePref ++ "route?tariffClass=cargo"),
   ("Детский", schemePref ++ "route?tariffClass=child_tariff"),
   ("Межгород", schemePref ++ "intercity_main")]

/-- `process_tariff` (main.py:945). -/
def process_tariff (d : SessionData) (text : String) : StepResult :=
  let tariff_name := pyStrip text
  if tariff_name = BACK_BUTTON_TEXT then (.waiting_for_action_type, d, .backed)
  else if tariff_name = "Свой тариф" then (.waiting_for_custom_tariff, d, .advanced)
  else
    let schemePref := get_app_scheme d.app
    match (tariff_map schemePref).find? (fun e => e.1 == tariff_name) with
    | some e => (.waiting_for_route_start, { d with base_tariff_deeplink := some e.2 }, .advanced)
    | none => (.waiting_for_tariff, d, .rejected)

/-- `process_custom_tariff` (main.py:980). -/
def process_custom_tariff (d : SessionData) (text : String) : StepResult :=
  let tariff_code := pyStrip text
  if tariff_code = BACK_BUTTON_TEXT then (.waiting_for_tariff, d, .backed)
  else if tariff_code = "" then (.waiting_for_custom_tariff, d, .rejected)
  else
    let schemePref := get_app_scheme d.app
    let base_deeplink := schemePref ++ "route?tariffClass=" ++ pyQuote tariff_code
    (.waiting_for_route_start,
     { d with base_tariff_deeplink := some base_deeplink }, .advanced)

/-- `process_banner_id` (main.py:1007). -/
def process_banner_id (d : SessionData) (text : String) : StepResult :=
  let banner_id := pyStrip text
  if banner_id = BACK_BUTTON_TEXT then (.waiting_for_action_type, d, .backed)
  else if banner_id = "" then (.waiting_for_banner_id, d, .rejected)
  else
    let schemePref := get_app_scheme d.app
    (.waiting_for_desktop_url,
     { d with deeplink := some (schemePref ++ "banner?id=" ++ pyQuote banner_id) }, .advanced)

/-- `process_desktop_url` (main.py:1043): back-navigation recomputed from
`action_type`, then validation, then the terminal transition that runs the
composer. -/
def process_desktop_url (d : SessionData) (text : String) : StepResult :=
  let desktop_url := pyStrip text
  if desktop_url = BACK_BUTTON_TEXT then
    if d.action_type = some "Тариф" ∧ d.base_tariff_deeplink.getD "" ≠ "" then
      (.waiting_for_route_end, d, .backed)
    else if d.action_type = some "Промокод" then (.waiting_for_promo_code, d, .backed)
    else if d.action_type = some "Баннер" then (.waiting_for_banner_id, d, .backed)
    else if d.action_type = some "Свой диплинк" then (.waiting_for_custom_deeplink, d, .backed)
    else if d.action_type = some "Сервис" then (.waiting_for_service, d, .backed)
    else (.waiting_for_action_type, d, .backed)
  else if pyLower desktop_url ≠ "пропустить" then
    if ¬ is_valid_url desktop_url then (.waiting_for_desktop_url, d, .rejected)
    else (.finished, { d with desktop_url := some desktop_url }, .terminal)
  else (.finished, d, .terminal)

/-- One message dispatched to the handler of the session's current state. -/
def step (s : BotState) (d : SessionData) (text : String) : StepResult :=
  match s with
  | .waiting_for_app => process_app d text
  | .waiting_for_reattribution => process_reattribution d text
  | .waiting_for_temporary_attribution => process_temporary_attribution d text
  | .waiting_for_campaign => process_campaign d text
  | .waiting_for_action_type => process_action_type d text
  | .waiting_for_service => process_service d text
  | .waiting_for_eats_option => process_eats_option d text
  | .waiting_for_eats_shop_url => process_eats_shop_url d text
  | .waiting_for_eats_restaurant_url => process_eats_restaurant_url d text
  | .waiting_for_route_start => process_route_start d text
  | .waiting_for_route_end => process_route_end d text
  | .waiting_for_custom_deeplink => process_custom_deeplink d text
  | .waiting_for_promo_code => process_promo_code d text
  | .waiting_for_tariff => process_tariff d text
  | .waiting_for_custom_tariff => process_custom_tariff d text
  | .waiting_for_banner_id => process_banner_id d text
  | .waiting_for_desktop_url => process_desktop_url d text
  | .finished => (.finished, d, .idle)

/-- Configurations reachable from a fresh session (`/start`). -/
inductive Reach : BotState → SessionData → Prop where
  | init : Reach .waiting_for_app {}
  | step (s : BotState) (d : SessionData) (t : String) :
      Reach s d → Reach (step s d t).1 (step s d t).2.1

/-- Run a list of messages from a configuration. -/
def runFrom (s : BotState) (d : SessionData) : List String → BotState × SessionData
  | [] => (s, d)
  | i :: is => runFrom (step s d i).1 (step s d i).2.1 is

theorem reach_runFrom (l : List String) (s : BotState) (d : SessionData) (h : Reach s d) :
    Reach (runFrom s d l).1 (runFrom s d l).2 := by
  induction l generalizing s d with
  | nil => exact h
  | cons i is ih => exact ih _ _ (Reach.step s d i h)

example : (runFrom .waiting_for_app {}
    ["Go", "Только неактивных от 30 дней", "Без ограничений", "leto",
     "Просто открыть приложение"]).1 = .waiting_for_desktop_url := by decide
example : (runFrom .waiting_for_app {}
    ["Go", "Только неактивных от 30 дней", "Без ограничений", "leto",
     "Просто открыть приложение"]).2.deeplink = some "yandextaxi://" := by decide
example : (runFrom .waiting_for_app {}
    ["Еда", "Реатрибуцировать всех", "30 дней", "camp", "Ресторан",
     "https://eda.yandex/moscow/r/rest?placeSlug=abc"]).1 = .waiting_for_desktop_url := by decide
example : (runFrom .waiting_for_app {}
    ["Go", "Реатрибуцировать всех", "30 дней", "camp", "Сервис", "Еда", "Магазин"]).1 =
    .waiting_for_eats_shop_url := by decide

/-! ## The scheme-qualification invariant (C3) -/

/-- Any stored base tariff deeplink is qualified with the current app's scheme. -/
def baseOk (d : SessionData) : Prop :=
  ∀ b, d.base_tariff_deeplink = some b → strStarts (get_app_scheme d.app) b = true

/-- The stored deeplink exists and is qualified with the current app's scheme. -/
def deeplinkOk (d : SessionData) : Prop :=
  ∃ dl, d.deeplink = some dl ∧ strStarts (get_app_scheme d.app) dl = true

/-- The selected app is a catalog key. -/
def appOk (d : SessionData) : Prop :=
  ∃ a, d.app = some a ∧ (APP_CATALOG a).isSome = true

/-- What the stored `action_type` says about the rest of the answer set when
the desktop-URL state is active. -/
def actionFacts (d : SessionData) : Prop :=
  (d.action_type = some "Сервис" → d.app = some "Go")
  ∧ (d.action_type = some "Ресторан" → d.app = some "Еда")
  ∧ (d.action_type = some "Тариф" → baseOk d)

/-- Per-state facts of the reachability invariant. -/
def stateInv : BotState → SessionData → Prop
  | .waiting_for_service, d => d.app = some "Go" ∧ d.action_type = some "Сервис"
  | .waiting_for_eats_option, d => d.app = some "Go" ∧ d.action_type = some "Сервис"
  | .waiting_for_eats_shop_url, d => d.app = some "Go" ∧ d.action_type = some "Сервис"
  | .waiting_for_eats_restaurant_url, d => d.app = some "Еда" ∧ d.action_type = some "Ресторан"
  | .waiting_for_custom_deeplink, d => d.action_type = some "Свой диплинк"
  | .waiting_for_promo_code, d => d.action_type = some "Промокод"
  | .waiting_for_banner_id, d => d.action_type = some "Баннер"
  | .waiting_for_tariff, d => d.action_type = some "Тариф"
  | .waiting_for_custom_tariff, d => d.action_type = some "Тариф"
  | .waiting_for_route_start, d => d.action_type = some "Тариф" ∧ baseOk d
  | .waiting_for_route_end, d => d.action_type = some "Тариф" ∧ baseOk d
  | .waiting_for_desktop_url, d => deeplinkOk d ∧ actionFacts d
  | _, _ => True

/-- The reachability invariant: a valid selected app (except in the initial
and cleared states), plus the per-state facts. -/
def Inv (s : BotState) (d : SessionData) : Prop :=
  (s = .waiting_for_app ∨ s = .finished ∨ appOk d) ∧ stateInv s d

theorem listPrefixOf_append {l : List Char} :
    ∀ {b : List Char}, l.isPrefixOf b = true → ∀ x, l.isPrefixOf (b ++ x) = true := by
  induction l with
  | nil => intro b _ x; simp [List.isPrefixOf]
  | cons a as ih =>
    intro b h x
    cases b with
    | nil => exact absurd h (by simp [List.isPrefixOf])
    | cons b0 bs =>
      simp only [List.isPrefixOf, List.cons_append, Bool.and_eq_true] at h ⊢
      exact ⟨h.1, ih h.2 x⟩

theorem listPrefixOf_self_append (l x : List Char) : l.isPrefixOf (l ++ x) = true := by
  induction l with
  | nil => simp [List.isPrefixOf]
  | cons a as ih => simp only [List.isPrefixOf, List.cons_append, Bool.and_eq_true]
                    exact ⟨by simp, ih⟩

theorem strStarts_append_right (p r : String) : strStarts p (p ++ r) = true := by
  unfold strStarts
  rw [String.data_append]
  exact listPrefixOf_self_append _ _

theorem strStarts_extend {p b : String} (h : strStarts p b = true) (x : String) :
    strStarts p (b ++ x) = true := by
  unfold strStarts at h ⊢
  rw [String.data_append]
  exact listPrefixOf_append h _

theorem app_catalog_cases {a : String} (h : (APP_CATALOG a).isSome = true) :
    a = "Драйв" ∨ a = "Еда" ∨ a = "Про" ∨ a = "Go" ∨ a = "Yango" ∨ a = "Yango Pro" := by
  unfold APP_CATALOG at h
  split_ifs at h with h1 h2 h3 h4 h5 h6
  · exact Or.inl h1
  · exact Or.inr (Or.inl h2)
  · exact Or.inr (Or.inr (Or.inl h3))
  · exact Or.inr (Or.inr (Or.inr (Or.inl h4)))
  · exact Or.inr (Or.inr (Or.inr (Or.inr (Or.inl h5))))
  · exact Or.inr (Or.inr (Or.inr (Or.inr (Or.inr h6))))
  · simp at h

theorem open_app_deeplink_scheme {a : String} (h : (APP_CATALOG a).isSome = true) :
    strStarts (get_app_scheme (some a)) (get_open_app_deeplink (some a)) = true := by
  rcases app_catalog_cases h with rfl | rfl | rfl | rfl | rfl | rfl <;> decide

theorem service_allowed_imp_go {a : String} (hv : (APP_CATALOG a).isSome = true)
    (h : "Сервис" ∈ get_action_type_options (some a)) : a = "Go" := by
  rcases app_catalog_cases hv with rfl | rfl | rfl | rfl | rfl | rfl <;>
    first | rfl | (exact absurd h (by decide))

theorem restaurant_allowed_imp_eda {a : String} (hv : (APP_CATALOG a).isSome = true)
    (h : "Ресторан" ∈ get_action_type_options (some a)) : a = "Еда" := by
  rcases app_catalog_cases hv with rfl | rfl | rfl | rfl | rfl | rfl <;>
    first | rfl | (exact absurd h (by decide))

theorem app_options_valid : ∀ x ∈ APP_OPTIONS, (APP_CATALOG x).isSome = true := by decide

theorem appOk_of_inv {s : BotState} {d : SessionData} (h : Inv s d)
    (h1 : s ≠ .waiting_for_app) (h2 : s ≠ .finished) : appOk d := by
  rcases h.1 with hs | hs | hs
  · exact absurd hs h1
  · exact absurd hs h2
  · exact hs

theorem deeplinkOk_update {d : SessionData} {dl : String}
    (h : strStarts (get_app_scheme d.app) dl = true) :
    deeplinkOk { d with deeplink := some dl } :=
  ⟨dl, rfl, h⟩

theorem baseOk_update {d : SessionData} {b : String}
    (h : strStarts (get_app_scheme d.app) b = true) :
    baseOk { d with base_tariff_deeplink := some b } := by
  intro b' hb'
  have hb : some b = some b' := hb'
  cases hb
  exact h

theorem actionFacts_service {d : SessionData} (hgo : d.app = some "Go")
    (hact : d.action_type = some "Сервис") : actionFacts d := by
  refine ⟨fun _ => hgo, ?_, ?_⟩
  · intro hx
    exact absurd (hact.symm.trans hx) (by decide)
  · intro hx
    exact absurd (hact.symm.trans hx) (by decide)

theorem actionFacts_restaurant {d : SessionData} (heda : d.app = some "Еда")
    (hact : d.action_type = some "Ресторан") : actionFacts d := by
  refine ⟨?_, fun _ => heda, ?_⟩
  · intro hx
    exact absurd (hact.symm.trans hx) (by decide)
  · intro hx
    exact absurd (hact.symm.trans hx) (by decide)

theorem actionFacts_tariff {d : SessionData} (hact : d.action_type = some "Тариф")
    (hbase : baseOk d) : actionFacts d := by
  refine ⟨?_, ?_, fun _ => hbase⟩
  · intro hx
    exact absurd (hact.symm.trans hx) (by decide)
  · intro hx
    exact absurd (hact.symm.trans hx) (by decide)

theorem actionFacts_other {d : SessionData} {x : String} (hact : d.action_type = some x)
    (h1 : x ≠ "Сервис") (h2 : x ≠ "Ресторан") (h3 : x ≠ "Тариф") : actionFacts d := by
  refine ⟨?_, ?_, ?_⟩ <;> intro hx
  · exact absurd (Option.some.inj (hact.symm.trans hx)) h1
  · exact absurd (Option.some.inj (hact.symm.trans hx)) h2
  · exact absurd (Option.some.inj (hact.symm.trans hx)) h3

theorem inv_desktop_entry {d : SessionData} {dl : String} (happ : appOk d)
    (hdl : strStarts (get_app_scheme d.app) dl = true)
    (hfacts : actionFacts d) :
    Inv .waiting_for_desktop_url { d with deeplink := some dl } :=
  ⟨Or.inr (Or.inr happ), ⟨dl, rfl, hdl⟩, hfacts⟩

theorem inv_process_app {d : SessionData} (t : String) (_ : Inv .waiting_for_app d) :
    Inv (process_app d t).1 (process_app d t).2.1 := by
  simp only [process_app]
  split_ifs with h1 h2
  · exact ⟨Or.inl rfl, trivial⟩
  · exact ⟨Or.inr (Or.inr ⟨pyStrip t, rfl, app_options_valid _ h2⟩), trivial⟩
  · exact ⟨Or.inl rfl, trivial⟩

theorem inv_process_reattribution {d : SessionData} (t : String)
    (h : Inv .waiting_for_reattribution d) :
    Inv (process_reattribution d t).1 (process_reattribution d t).2.1 := by
  have happ := appOk_of_inv h (by decide) (by decide)
  rcases happ with ⟨a, ha, hv⟩
  simp only [process_reattribution]
  split_ifs with h1 h2
  · exact ⟨Or.inl rfl, trivial⟩
  · exact ⟨Or.inr (Or.inr ⟨a, ha, hv⟩), trivial⟩
  · exact ⟨Or.inr (Or.inr ⟨a, ha, hv⟩), trivial⟩

theorem inv_process_temporary_attribution {d : SessionData} (t : String)
    (h : Inv .waiting_for_temporary_attribution d) :
    Inv (process_temporary_attribution d t).1 (process_temporary_attribution d t).2.1 := by
  have happ := appOk_of_inv h (by decide) (by decide)
  rcases happ with ⟨a, ha, hv⟩
  simp only [process_temporary_attribution]
  split_ifs with h1 h2
  · exact ⟨Or.inr (Or.inr ⟨a, ha, hv⟩), trivial⟩
  · exact ⟨Or.inr (Or.inr ⟨a, ha, hv⟩), trivial⟩
  · exact ⟨Or.inr (Or.inr ⟨a, ha, hv⟩), trivial⟩

theorem inv_process_campaign {d : SessionData} (t : String)
    (h : Inv .waiting_for_campaign d) :
    Inv (process_campaign d t).1 (process_campaign d t).2.1 := by
  have happ := appOk_of_inv h (by decide) (by decide)
  rcases happ with ⟨a, ha, hv⟩
  simp only [process_campaign]
  split_ifs with h1 h2
  · exact ⟨Or.inr (Or.inr ⟨a, ha, hv⟩), trivial⟩
  · exact ⟨Or.inr (Or.inr ⟨a, ha, hv⟩), trivial⟩
  · exact ⟨Or.inr (Or.inr ⟨a, ha, hv⟩), trivial⟩

theorem inv_process_action_type {d : SessionData} (t : String)
    (h : Inv .waiting_for_action_type d) :
    Inv (process_action_type d t).1 (process_action_type d t).2.1 := by
  have happ := appOk_of_inv h (by decide) (by decide)
  rcases happ with ⟨a, ha, hv⟩
  simp only [process_action_type, ha, Option.getD_some]
  split_ifs with h1 h2 h3 h4 h5 h6 h7 h8 h9
  · exact ⟨Or.inr (Or.inr ⟨a, ha, hv⟩), trivial⟩
  · refine ⟨Or.inr (Or.inr ⟨a, rfl, hv⟩),
      ⟨get_open_app_deeplink (some a), rfl, open_app_deeplink_scheme hv⟩, ?_⟩
    rcases h3 with h3 | h3 <;>
      refine actionFacts_other rfl ?_ ?_ ?_ <;>
        first | decide | (rw [h3]; decide)
  · have hgo : a = "Go" := service_allowed_imp_go hv (h4 ▸ h2)
    subst hgo
    refine ⟨Or.inr (Or.inr ⟨"Go", rfl, hv⟩), rfl, ?_⟩
    first | rfl | exact congrArg some h4
  · refine ⟨Or.inr (Or.inr ⟨a, rfl, hv⟩), ?_⟩
    first | rfl | exact congrArg some h5
  · refine ⟨Or.inr (Or.inr ⟨a, rfl, hv⟩), ?_⟩
    first | rfl | exact congrArg some h6
  · refine ⟨Or.inr (Or.inr ⟨a, rfl, hv⟩), ?_⟩
    first | rfl | exact congrArg some h7
  · have heda : a = "Еда" := restaurant_allowed_imp_eda hv (h8 ▸ h2)
    subst heda
    refine ⟨Or.inr (Or.inr ⟨"Еда", rfl, hv⟩), rfl, ?_⟩
    first | rfl | exact congrArg some h8
  · refine ⟨Or.inr (Or.inr ⟨a, rfl, hv⟩), ?_⟩
    first | rfl | exact congrArg some h9
  · exact ⟨Or.inr (Or.inr ⟨a, rfl, hv⟩), trivial⟩
  · exact ⟨Or.inr (Or.inr ⟨a, ha, hv⟩), trivial⟩

theorem std_service_scheme :
    ∀ e ∈ standard_service_map,
      strStarts (get_app_scheme (some "Go")) ("yandextaxi://external?service=" ++ e.2) = true := by
  decide

theorem inv_process_service {d : SessionData} (t : String)
    (h : Inv .waiting_for_service d) :
    Inv (process_service d t).1 (process_service d t).2.1 := by
  have happ := appOk_of_inv h (by decide) (by decide)
  rcases h.2 with ⟨hgo, hact⟩
  simp only [process_service]
  split_ifs with h1 h2
  · exact ⟨Or.inr (Or.inr happ), trivial⟩
  · exact ⟨Or.inr (Or.inr happ), hgo, hact⟩
  · cases hsp : special_service_map.find? (fun e => e.1 == pyStrip t) with
    | some e =>
      simp only [hsp]
      have he : e = ("Самокаты", "yandextaxi://scooters") :=
        List.mem_singleton.mp (List.mem_of_find?_eq_some hsp)
      refine ⟨Or.inr (Or.inr happ), ⟨e.2, rfl, ?_⟩, actionFacts_service hgo hact⟩
      show strStarts (get_app_scheme d.app) e.2 = true
      rw [hgo, he]
      decide
    | none =>
      simp only [hsp]
      cases hst : standard_service_map.find? (fun e => e.1 == pyStrip t) with
      | some e =>
        simp only [hst]
        refine ⟨Or.inr (Or.inr happ), ⟨_, rfl, ?_⟩, actionFacts_service hgo hact⟩
        show strStarts (get_app_scheme d.app) ("yandextaxi://external?service=" ++ e.2) = true
        rw [hgo]
        exact std_service_scheme e (List.mem_of_find?_eq_some hst)
      | none =>
        simp only [hst]
        exact ⟨Or.inr (Or.inr happ), hgo, hact⟩

theorem inv_process_eats_option {d : SessionData} (t : String)
    (h : Inv .waiting_for_eats_option d) :
    Inv (process_eats_option d t).1 (process_eats_option d t).2.1 := by
  have happ := appOk_of_inv h (by decide) (by decide)
  rcases h.2 with ⟨hgo, hact⟩
  simp only [process_eats_option]
  split_ifs with h1 h2 h3
  · exact ⟨Or.inr (Or.inr happ), hgo, hact⟩
  · refine ⟨Or.inr (Or.inr happ), ⟨_, rfl, ?_⟩, actionFacts_service hgo hact⟩
    show strStarts (get_app_scheme d.app) "yandextaxi://external?service=eats" = true
    rw [hgo]
    decide
  · exact ⟨Or.inr (Or.inr happ), hgo, hact⟩
  · exact ⟨Or.inr (Or.inr happ), hgo, hact⟩

theorem eats_shop_deeplink_scheme {u dl : String} (h : build_eats_shop_deeplink u = some dl) :
    strStarts "yandextaxi://" dl = true := by
  simp only [build_eats_shop_deeplink] at h
  split_ifs at h <;>
    first
    | exact Option.noConfusion h
    | (cases h; exact strStarts_extend (by decide) _)

theorem eats_restaurant_deeplink_scheme {u dl : String}
    (h : build_eats_restaurant_deeplink u = some dl) :
    strStarts "eda.yandex://" dl = true := by
  simp only [build_eats_restaurant_deeplink] at h
  split_ifs at h <;>
    first
    | exact Option.noConfusion h
    | (revert h
       cases hq : qsLookup (parse_qs (pyUrlparse u).query false) "placeSlug" with
       | some l =>
         cases l with
         | nil => exact fun h => Option.noConfusion h
         | cons slug rest =>
           intro h
           dsimp only at h
           split_ifs at h <;>
             first
             | exact Option.noConfusion h
             | (cases h; exact strStarts_extend (by decide) _)
       | none => exact fun h => Option.noConfusion h)

theorem inv_process_eats_shop_url {d : SessionData} (t : String)
    (h : Inv .waiting_for_eats_shop_url d) :
    Inv (process_eats_shop_url d t).1 (process_eats_shop_url d t).2.1 := by
  have happ := appOk_of_inv h (by decide) (by decide)
  rcases h.2 with ⟨hgo, hact⟩
  simp only [process_eats_shop_url]
  split_ifs with h1
  · exact ⟨Or.inr (Or.inr happ), hgo, hact⟩
  · cases hb : build_eats_shop_deeplink (pyStrip t) with
    | some dl =>
      simp only [hb]
      refine ⟨Or.inr (Or.inr happ), ⟨dl, rfl, ?_⟩, actionFacts_service hgo hact⟩
      show strStarts (get_app_scheme d.app) dl = true
      rw [hgo]
      exact eats_shop_deeplink_scheme hb
    | none =>
      simp only [hb]
      exact ⟨Or.inr (Or.inr happ), hgo, hact⟩

theorem inv_process_eats_restaurant_url {d : SessionData} (t : String)
    (h : Inv .waiting_for_eats_restaurant_url d) :
    Inv (process_eats_restaurant_url d t).1 (process_eats_restaurant_url d t).2.1 := by
  have happ := appOk_of_inv h (by decide) (by decide)
  rcases h.2 with ⟨heda, hact⟩
  simp only [process_eats_restaurant_url]
  split_ifs with h1
  · exact ⟨Or.inr (Or.inr happ), trivial⟩
  · cases hb : build_eats_restaurant_deeplink (pyStrip t) with
    | some dl =>
      simp only [hb]
      refine ⟨Or.inr (Or.inr happ), ⟨dl, rfl, ?_⟩, actionFacts_restaurant heda hact⟩
      show strStarts (get_app_scheme d.app) dl = true
      rw [heda]
      exact eats_restaurant_deeplink_scheme hb
    | none =>
      simp only [hb]
      exact ⟨Or.inr (Or.inr happ), heda, hact⟩

theorem inv_process_route_start {d : SessionData} (t : String)
    (h : Inv .waiting_for_route_start d) :
    Inv (process_route_start d t).1 (process_route_start d t).2.1 := by
  have happ := appOk_of_inv h (by decide) (by decide)
  rcases h.2 with ⟨hact, hbase⟩
  simp only [process_route_start]
  split_ifs with h1 h2
  · exact ⟨Or.inr (Or.inr happ), hact⟩
  all_goals exact ⟨Or.inr (Or.inr happ), hact, fun b hb => hbase b hb⟩

theorem route_deeplink_scheme {d : SessionData} (hbase : baseOk d) (e : String) :
    strStarts (get_app_scheme d.app) (route_deeplink d e) = true := by
  have hb' : d.base_tariff_deeplink.getD "" ≠ "" →
      strStarts (get_app_scheme d.app) (d.base_tariff_deeplink.getD "") = true := by
    intro hne
    cases hb : d.base_tariff_deeplink with
    | none => rw [hb] at hne; exact absurd rfl hne
    | some b => exact hbase b hb
  simp only [route_deeplink]
  split_ifs <;>
    first
    | exact strStarts_extend (strStarts_append_right _ _) _
    | exact strStarts_append_right _ _
    | exact hb' (by assumption)
    | exact strStarts_extend (strStarts_extend (hb' (by assumption)) _) _

theorem inv_process_route_end {d : SessionData} (t : String)
    (h : Inv .waiting_for_route_end d) :
    Inv (process_route_end d t).1 (process_route_end d t).2.1 := by
  have happ := appOk_of_inv h (by decide) (by decide)
  rcases h.2 with ⟨hact, hbase⟩
  simp only [process_route_end]
  split_ifs with h1 h2
  · exact ⟨Or.inr (Or.inr happ), hact, hbase⟩
  all_goals exact ⟨Or.inr (Or.inr happ),
    ⟨_, rfl, route_deeplink_scheme hbase _⟩, actionFacts_tariff hact hbase⟩

theorem inv_process_custom_deeplink {d : SessionData} (t : String)
    (h : Inv .waiting_for_custom_deeplink d) :
    Inv (process_custom_deeplink d t).1 (process_custom_deeplink d t).2.1 := by
  have happ := appOk_of_inv h (by decide) (by decide)
  have hact := h.2
  have hfacts : actionFacts d :=
    actionFacts_other hact (by decide) (by decide) (by decide)
  simp only [process_custom_deeplink]
  split_ifs with h1 h2 h3
  · exact ⟨Or.inr (Or.inr happ), trivial⟩
  · -- accepted with an embedded href=: the rewritten deeplink stays
    -- scheme-qualified
    refine ⟨Or.inr (Or.inr happ), ⟨_, rfl, ?_⟩, hfacts⟩
    show strStarts (get_app_scheme d.app) _ = true
    cases hfind : findSub "href=".data
        ((pyStrip t).data.drop (get_app_scheme d.app).data.length) with
    | some href_pos =>
      simp only [hfind]
      split_ifs with h4
      · exact strStarts_extend (strStarts_extend (strStarts_append_right _ _) _) _
      · exact h2
    | none =>
      simp only [hfind]
      exact h2
  · exact ⟨Or.inr (Or.inr happ), ⟨_, rfl, h2⟩, hfacts⟩
  · exact ⟨Or.inr (Or.inr happ), hact⟩

theorem inv_process_promo_code {d : SessionData} (t : String)
    (h : Inv .waiting_for_promo_code d) :
    Inv (process_promo_code d t).1 (process_promo_code d t).2.1 := by
  have happ := appOk_of_inv h (by decide) (by decide)
  have hact := h.2
  simp only [process_promo_code]
  split_ifs with h1 h2
  · exact ⟨Or.inr (Or.inr happ), trivial⟩
  · exact ⟨Or.inr (Or.inr happ), hact⟩
  · exact ⟨Or.inr (Or.inr happ),
      ⟨_, rfl, strStarts_extend (strStarts_append_right _ _) _⟩,
      actionFacts_other hact (by decide) (by decide) (by decide)⟩

theorem tariff_map_scheme (p : String) : ∀ e ∈ tariff_map p, strStarts p e.2 = true := by
  intro e he
  simp only [tariff_map, List.mem_cons, List.not_mem_nil, or_false] at he
  rcases he with rfl | rfl | rfl | rfl | rfl | rfl | rfl <;>
    exact strStarts_append_right _ _

theorem inv_process_tariff {d : SessionData} (t : String)
    (h : Inv .waiting_for_tariff d) :
    Inv (process_tariff d t).1 (process_tariff d t).2.1 := by
  have happ := appOk_of_inv h (by decide) (by decide)
  have hact := h.2
  simp only [process_tariff]
  split_ifs with h1 h2
  · exact ⟨Or.inr (Or.inr happ), trivial⟩
  · exact ⟨Or.inr (Or.inr happ), hact⟩
  · cases hf : (tariff_map (get_app_scheme d.app)).find? (fun e => e.1 == pyStrip t) with
    | some e =>
      simp only [hf]
      refine ⟨Or.inr (Or.inr happ), hact, ?_⟩
      intro b hb
      have hb' : some e.2 = some b := hb
      cases hb'
      exact tariff_map_scheme _ e (List.mem_of_find?_eq_some hf)
    | none =>
      simp only [hf]
      exact ⟨Or.inr (Or.inr happ), hact⟩

theorem inv_process_custom_tariff {d : SessionData} (t : String)
    (h : Inv .waiting_for_custom_tariff d) :
    Inv (process_custom_tariff d t).1 (process_custom_tariff d t).2.1 := by
  have happ := appOk_of_inv h (by decide) (by decide)
  have hact := h.2
  simp only [process_custom_tariff]
  split_ifs with h1 h2
  · exact ⟨Or.inr (Or.inr happ), hact⟩
  · exact ⟨Or.inr (Or.inr happ), hact⟩
  · refine ⟨Or.inr (Or.inr happ), hact, ?_⟩
    intro b hb
    have hb' : some (get_app_scheme d.app ++ "route?tariffClass=" ++ pyQuote (pyStrip t)) =
        some b := hb
    cases hb'
    exact strStarts_extend (strStarts_append_right _ _) _

theorem inv_process_banner_id {d : SessionData} (t : String)
    (h : Inv .waiting_for_banner_id d) :
    Inv (process_banner_id d t).1 (process_banner_id d t).2.1 := by
  have happ := appOk_of_inv h (by decide) (by decide)
  have hact := h.2
  simp only [process_banner_id]
  split_ifs with h1 h2
  · exact ⟨Or.inr (Or.inr happ), trivial⟩
  · exact ⟨Or.inr (Or.inr happ), hact⟩
  · exact ⟨Or.inr (Or.inr happ),
      ⟨_, rfl, strStarts_extend (strStarts_append_right _ _) _⟩,
      actionFacts_other hact (by decide) (by decide) (by decide)⟩

theorem inv_process_desktop_url {d : SessionData} (t : String)
    (h : Inv .waiting_for_desktop_url d) :
    Inv (process_desktop_url d t).1 (process_desktop_url d t).2.1 := by
  have happ := appOk_of_inv h (by decide) (by decide)
  rcases h.2 with ⟨hdl, hfacts⟩
  rcases hfacts with ⟨hserv, hrest, htar⟩
  simp only [process_desktop_url]
  split_ifs with h1 h2 h3 h4 h5 h6 h7 h8
  · exact ⟨Or.inr (Or.inr happ), h2.1, htar h2.1⟩
  · exact ⟨Or.inr (Or.inr happ), h3⟩
  · exact ⟨Or.inr (Or.inr happ), h4⟩
  · exact ⟨Or.inr (Or.inr happ), h5⟩
  · exact ⟨Or.inr (Or.inr happ), hserv h6, h6⟩
  all_goals first
    | exact ⟨Or.inr (Or.inr happ), trivial⟩
    | exact ⟨Or.inr (Or.inr happ), hdl, hserv, hrest, htar⟩

theorem inv_step (s : BotState) (d : SessionData) (t : String) (h : Inv s d) :
    Inv (step s d t).1 (step s d t).2.1 := by
  cases s with
  | waiting_for_app => exact inv_process_app t h
  | waiting_for_reattribution => exact inv_process_reattribution t h
  | waiting_for_temporary_attribution => exact inv_process_temporary_attribution t h
  | waiting_for_campaign => exact inv_process_campaign t h
  | waiting_for_action_type => exact inv_process_action_type t h
  | waiting_for_service => exact inv_process_service t h
  | waiting_for_eats_option => exact inv_process_eats_option t h
  | waiting_for_eats_shop_url => exact inv_process_eats_shop_url t h
  | waiting_for_eats_restaurant_url => exact inv_process_eats_restaurant_url t h
  | waiting_for_route_start => exact inv_process_route_start t h
  | waiting_for_route_end => exact inv_process_route_end t h
  | waiting_for_custom_deeplink => exact inv_process_custom_deeplink t h
  | waiting_for_promo_code => exact inv_process_promo_code t h
  | waiting_for_tariff => exact inv_process_tariff t h
  | waiting_for_custom_tariff => exact inv_process_custom_tariff t h
  | waiting_for_banner_id => exact inv_process_banner_id t h
  | waiting_for_desktop_url => exact inv_process_desktop_url t h
  | finished => exact ⟨Or.inr (Or.inl rfl), trivial⟩

theorem inv_reach {s : BotState} {d : SessionData} (h : Reach s d) : Inv s d := by
  induction h with
  | init => exact ⟨Or.inl rfl, trivial⟩
  | step s d t _ ih => exact inv_step s d t ih

theorem get_app_scheme_of_catalog {a : String} {e : String × String}
    (h : APP_CATALOG a = some e) : get_app_scheme (some a) = e.1 := by
  unfold get_app_scheme get_app_name_or_default
  simp only [h, Option.isSome_some, if_true, Option.getD_some]

set_option maxHeartbeats 1000000 in
/-- C3: on every reachable configuration, when a message triggers the
terminal transition (the composer call), the stored deeplink is qualified
with the currently selected app's catalog scheme. -/
theorem c3_scheme_invariant {s : BotState} {d : SessionData} (hr : Reach s d) (t : String)
    (hterm : (step s d t).2.2 = .terminal) :
    ∃ a e dl, (step s d t).2.1.app = some a ∧ APP_CATALOG a = some e
      ∧ (step s d t).2.1.deeplink = some dl ∧ strStarts e.1 dl = true := by
  have hinv := inv_reach hr
  cases s with
  | waiting_for_app =>
    simp only [step, process_app] at hterm
    split_ifs at hterm <;> exact Outcome.noConfusion hterm
  | waiting_for_reattribution =>
    simp only [step, process_reattribution] at hterm
    split_ifs at hterm <;> exact Outcome.noConfusion hterm
  | waiting_for_temporary_attribution =>
    simp only [step, process_temporary_attribution] at hterm
    split_ifs at hterm <;> exact Outcome.noConfusion hterm
  | waiting_for_campaign =>
    simp only [step, process_campaign] at hterm
    split_ifs at hterm <;> exact Outcome.noConfusion hterm
  | waiting_for_action_type =>
    simp only [step, process_action_type] at hterm
    split_ifs at hterm <;> exact Outcome.noConfusion hterm
  | waiting_for_service =>
    simp only [step, process_service] at hterm
    split_ifs at hterm <;> (repeat' split at hterm) <;>
      exact Outcome.noConfusion hterm
  | waiting_for_eats_option =>
    simp only [step, process_eats_option] at hterm
    split_ifs at hterm <;> exact Outcome.noConfusion hterm
  | waiting_for_eats_shop_url =>
    simp only [step, process_eats_shop_url] at hterm
    split_ifs at hterm <;> (repeat' split at hterm) <;>
      exact Outcome.noConfusion hterm
  | waiting_for_eats_restaurant_url =>
    simp only [step, process_eats_restaurant_url] at hterm
    split_ifs at hterm <;> (repeat' split at hterm) <;>
      exact Outcome.noConfusion hterm
  | waiting_for_route_start =>
    simp only [step, process_route_start] at hterm
    split_ifs at hterm <;> exact Outcome.noConfusion hterm
  | waiting_for_route_end =>
    simp only [step, process_route_end] at hterm
    split_ifs at hterm <;> exact Outcome.noConfusion hterm
  | waiting_for_custom_deeplink =>
    simp only [step, process_custom_deeplink] at hterm
    split_ifs at hterm <;> (repeat' split at hterm) <;>
      exact Outcome.noConfusion hterm
  | waiting_for_promo_code =>
    simp only [step, process_promo_code] at hterm
    split_ifs at hterm <;> exact Outcome.noConfusion hterm
  | waiting_for_tariff =>
    simp only [step, process_tariff] at hterm
    split_ifs at hterm <;> (repeat' split at hterm) <;>
      exact Outcome.noConfusion hterm
  | waiting_for_custom_tariff =>
    simp only [step, process_custom_tariff] at hterm
    split_ifs at hterm <;> exact Outcome.noConfusion hterm
  | waiting_for_banner_id =>
    simp only [step, process_banner_id] at hterm
    split_ifs at hterm <;> exact Outcome.noConfusion hterm
  | finished => exact Outcome.noConfusion hterm
  | waiting_for_desktop_url =>
    rcases appOk_of_inv hinv (by decide) (by decide) with ⟨a, ha, hv⟩
    rcases hinv.2.1 with ⟨dl, hdleq, hpre⟩
    cases he : APP_CATALOG a with
    | none => rw [he] at hv; exact absurd hv (by decide)
    | some e =>
      rw [ha] at hpre
      rw [get_app_scheme_of_catalog he] at hpre
      simp only [step, process_desktop_url] at hterm ⊢
      split_ifs at hterm ⊢ <;>
        first
        | exact Outcome.noConfusion hterm
        | exact ⟨a, e, dl, ha, he, hdleq, hpre⟩

/-- The C3 witness trace: Go, dormant-30-days, unlimited, campaign, open app. -/
def c3Trace : List String :=
  ["Go", "Только неактивных от 30 дней", "Без ограничений", "leto",
   "Просто открыть приложение"]

/-- Witness for `c3_scheme_invariant`: a full open-app session for Go. -/
theorem c3_scheme_invariant_witness :
    ∃ a e dl,
      (step (runFrom .waiting_for_app {} c3Trace).1 (runFrom .waiting_for_app {} c3Trace).2
        "Пропустить").2.1.app = some a
      ∧ APP_CATALOG a = some e
      ∧ (step (runFrom .waiting_for_app {} c3Trace).1 (runFrom .waiting_for_app {} c3Trace).2
          "Пропустить").2.1.deeplink = some dl
      ∧ strStarts e.1 dl = true :=
  c3_scheme_invariant (reach_runFrom c3Trace .waiting_for_app {} Reach.init)
    "Пропустить" (by decide)

set_option maxHeartbeats 1000000 in
/-- C7: whenever a handler rejects its input (validation failure), the
session stays in the same state and the answer set is unchanged. -/
theorem c7_reject_preserves (s : BotState) (d : SessionData) (t : String)
    (h : (step s d t).2.2 = .rejected) :
    (step s d t).1 = s ∧ (step s d t).2.1 = d := by
  cases s with
  | waiting_for_app =>
    simp only [step, process_app] at h ⊢
    split_ifs at h ⊢ <;> first | exact ⟨rfl, rfl⟩ | exact Outcome.noConfusion h
  | waiting_for_reattribution =>
    simp only [step, process_reattribution] at h ⊢
    split_ifs at h ⊢ <;> first | exact ⟨rfl, rfl⟩ | exact Outcome.noConfusion h
  | waiting_for_temporary_attribution =>
    simp only [step, process_temporary_attribution] at h ⊢
    split_ifs at h ⊢ <;> first | exact ⟨rfl, rfl⟩ | exact Outcome.noConfusion h
  | waiting_for_campaign =>
    simp only [step, process_campaign] at h ⊢
    split_ifs at h ⊢ <;> first | exact ⟨rfl, rfl⟩ | exact Outcome.noConfusion h
  | waiting_for_action_type =>
    simp only [step, process_action_type] at h ⊢
    split_ifs at h ⊢ <;> first | exact ⟨rfl, rfl⟩ | exact Outcome.noConfusion h
  | waiting_for_service =>
    simp only [step, process_service] at h ⊢
    cases hsp : special_service_map.find? (fun e => e.1 == pyStrip t) with
    | some e =>
      simp only [hsp] at h ⊢
      split_ifs at h ⊢ <;> first | exact ⟨rfl, rfl⟩ | exact Outcome.noConfusion h
    | none =>
      cases hst : standard_service_map.find? (fun e => e.1 == pyStrip t) with
      | some e =>
        simp only [hsp, hst] at h ⊢
        split_ifs at h ⊢ <;> first | exact ⟨rfl, rfl⟩ | exact Outcome.noConfusion h
      | none =>
        simp only [hsp, hst] at h ⊢
        split_ifs at h ⊢ <;> first | exact ⟨rfl, rfl⟩ | exact Outcome.noConfusion h
  | waiting_for_eats_option =>
    simp only [step, process_eats_option] at h ⊢
    split_ifs at h ⊢ <;> first | exact ⟨rfl, rfl⟩ | exact Outcome.noConfusion h
  | waiting_for_eats_shop_url =>
    simp only [step, process_eats_shop_url] at h ⊢
    cases hb : build_eats_shop_deeplink (pyStrip t) with
    | some dl =>
      simp only [hb] at h ⊢
      split_ifs at h ⊢ <;> first | exact ⟨rfl, rfl⟩ | exact Outcome.noConfusion h
    | none =>
      simp only [hb] at h ⊢
      split_ifs at h ⊢ <;> first | exact ⟨rfl, rfl⟩ | exact Outcome.noConfusion h
  | waiting_for_eats_restaurant_url =>
    simp only [step, process_eats_restaurant_url] at h ⊢
    cases hb : build_eats_restaurant_deeplink (pyStrip t) with
    | some dl =>
      simp only [hb] at h ⊢
      split_ifs at h ⊢ <;> first | exact ⟨rfl, rfl⟩ | exact Outcome.noConfusion h
    | none =>
      simp only [hb] at h ⊢
      split_ifs at h ⊢ <;> first | exact ⟨rfl, rfl⟩ | exact Outcome.noConfusion h
  | waiting_for_route_start =>
    simp only [step, process_route_start] at h ⊢
    split_ifs at h ⊢ <;> first | exact ⟨rfl, rfl⟩ | exact Outcome.noConfusion h
  | waiting_for_route_end =>
    simp only [step, process_route_end] at h ⊢
    split_ifs at h ⊢ <;> first | exact ⟨rfl, rfl⟩ | exact Outcome.noConfusion h
  | waiting_for_custom_deeplink =>
    simp only [step, process_custom_deeplink] at h ⊢
    split_ifs at h ⊢ <;> first | exact ⟨rfl, rfl⟩ | exact Outcome.noConfusion h
  | waiting_for_promo_code =>
    simp only [step, process_promo_code] at h ⊢
    split_ifs at h ⊢ <;> first | exact ⟨rfl, rfl⟩ | exact Outcome.noConfusion h
  | waiting_for_tariff =>
    simp only [step, process_tariff] at h ⊢
    cases hf : (tariff_map (get_app_scheme d.app)).find? (fun e => e.1 == pyStrip t) with
    | some e =>
      simp only [hf] at h ⊢
      split_ifs at h ⊢ <;> first | exact ⟨rfl, rfl⟩ | exact Outcome.noConfusion h
    | none =>
      simp only [hf] at h ⊢
      split_ifs at h ⊢ <;> first | exact ⟨rfl, rfl⟩ | exact Outcome.noConfusion h
  | waiting_for_custom_tariff =>
    simp only [step, process_custom_tariff] at h ⊢
    split_ifs at h ⊢ <;> first | exact ⟨rfl, rfl⟩ | exact Outcome.noConfusion h
  | waiting_for_banner_id =>
    simp only [step, process_banner_id] at h ⊢
    split_ifs at h ⊢ <;> first | exact ⟨rfl, rfl⟩ | exact Outcome.noConfusion h
  | waiting_for_desktop_url =>
    simp only [step, process_desktop_url] at h ⊢
    split_ifs at h ⊢ <;> first | exact ⟨rfl, rfl⟩ | exact Outcome.noConfusion h
  | finished => exact Outcome.noConfusion h

/-- Witness for `c7_reject_preserves`: a two-word campaign name is rejected
and leaves the session untouched. -/
theorem c7_reject_preserves_witness :
    (step .waiting_for_campaign {} "два слова").1 = .waiting_for_campaign ∧
    (step .waiting_for_campaign {} "два слова").2.1 = ({} : SessionData) :=
  c7_reject_preserves .waiting_for_campaign {} "два слова" (by decide)

/-- The trace of the C8 counterexample: app `Еда`, restaurant action, a valid
restaurant URL, landing in the desktop-URL state. -/
def c8Trace : List String :=
  ["Еда", "Только неактивных от 30 дней", "Без ограничений", "camp", "Ресторан",
   "https://eda.yandex/moscow/r/rest?placeSlug=abc"]

/-- C8 counterexample: the desktop-URL state was entered from the
restaurant-URL state (`action_type = "Ресторан"`), yet the back token leads
to the action-type menu, not to the restaurant-URL state — refuting the claim
that back always returns to the state actually traversed immediately before. -/
theorem c8_counterexample :
    (runFrom .waiting_for_app {} (c8Trace.take 5)).1 = .waiting_for_eats_restaurant_url
    ∧ (runFrom .waiting_for_app {} c8Trace).1 = .waiting_for_desktop_url
    ∧ (step .waiting_for_desktop_url (runFrom .waiting_for_app {} c8Trace).2 "Назад").1 =
        .waiting_for_action_type
    ∧ BotState.waiting_for_action_type ≠ BotState.waiting_for_eats_restaurant_url := by
  decide

/-- C8 (amended): back from the desktop-URL state goes to a target recomputed
from `action_type`: the banner-id state for `Баннер`, the promo-code state for
`Промокод`, the custom-deeplink state for `Свой диплинк`, the service menu for
`Сервис`, the route-end state for `Тариф` with a stored base tariff deeplink,
and the action-type menu in all other cases — in particular for `Ресторан` and
for the open-app action.  For the open-app action the action-type menu is
itself the state traversed immediately before the desktop-URL state, so back
is faithful there; for `Ресторан` the actually traversed predecessor was the
restaurant-URL state, so back does not return to it (the counterexample). -/
theorem c8_desktop_back_targets (d : SessionData) :
    (d.action_type = some "Баннер" →
      step .waiting_for_desktop_url d "Назад" = (.waiting_for_banner_id, d, .backed))
    ∧ (d.action_type = some "Промокод" →
      step .waiting_for_desktop_url d "Назад" = (.waiting_for_promo_code, d, .backed))
    ∧ (d.action_type = some "Свой диплинк" →
      step .waiting_for_desktop_url d "Назад" = (.waiting_for_custom_deeplink, d, .backed))
    ∧ (d.action_type = some "Сервис" →
      step .waiting_for_desktop_url d "Назад" = (.waiting_for_service, d, .backed))
    ∧ (d.action_type = some "Тариф" → d.base_tariff_deeplink.getD "" ≠ "" →
      step .waiting_for_desktop_url d "Назад" = (.waiting_for_route_end, d, .backed))
    ∧ (d.action_type = some "Ресторан" →
      step .waiting_for_desktop_url d "Назад" = (.waiting_for_action_type, d, .backed))
    ∧ (d.action_type = some "Просто открыть приложение" →
      step .waiting_for_desktop_url d "Назад" = (.waiting_for_action_type, d, .backed)) := by
  refine ⟨?_, ?_, ?_, ?_, ?_, ?_, ?_⟩ <;> intro h1 <;>
    simp only [step, process_desktop_url] <;>
    rw [if_pos (show pyStrip "Назад" = BACK_BUTTON_TEXT by decide)] <;>
    simp only [h1] <;>
    split_ifs <;>
    first
    | rfl
    | (intro h2; rfl)
    | simp_all

/-- Witness for `c8_desktop_back_targets` at `action_type = "Баннер"`. -/
theorem c8_desktop_back_targets_witness :
    step .waiting_for_desktop_url { action_type := some "Баннер" } "Назад" =
      (.waiting_for_banner_id, { action_type := some "Баннер" }, .backed) :=
  (c8_desktop_back_targets { action_type := some "Баннер" }).1 rfl

/-- The trace of the C9 counterexample: the tariff flow through the
custom-tariff state into the route-start state. -/
def c9Trace : List String :=
  ["Go", "Только неактивных от 30 дней", "Без ограничений", "camp", "Тариф",
   "Свой тариф", "mytar"]

/-- C9 counterexample: the route-start state was entered from the
custom-tariff state, yet back returns to the tariff menu; and the
`base_tariff_deeplink` captured strictly after that target is not discarded —
refuting both the discard clause and the immediate-predecessor clause. -/
theorem c9_counterexample :
    (runFrom .waiting_for_app {} (c9Trace.take 6)).1 = .waiting_for_custom_tariff
    ∧ (runFrom .waiting_for_app {} c9Trace).1 = .waiting_for_route_start
    ∧ (step .waiting_for_route_start (runFrom .waiting_for_app {} c9Trace).2 "Назад").1 =
        .waiting_for_tariff
    ∧ BotState.waiting_for_tariff ≠ BotState.waiting_for_custom_tariff
    ∧ (step .waiting_for_route_start (runFrom .waiting_for_app {} c9Trace).2
        "Назад").2.1.base_tariff_deeplink = some "yandextaxi://route?tariffClass=mytar" := by
  decide

set_option maxHeartbeats 1000000 in
/-- C9 (amended): the back token moves to a per-state target (recomputed from
`action_type` in the desktop-URL state) that may differ from the actually
traversed predecessor, and no answer fields are ever discarded: every back
transition leaves the answer set unchanged (later states overwrite stale
fields instead). -/
theorem c9_back_preserves_data (s : BotState) (d : SessionData) (t : String)
    (h : (step s d t).2.2 = .backed) : (step s d t).2.1 = d := by
  cases s
  case waiting_for_service =>
    simp only [step, process_service] at h ⊢
    cases hsp : special_service_map.find? (fun e => e.1 == pyStrip t) with
    | some e =>
      simp only [hsp] at h ⊢
      split_ifs at h ⊢ <;> first | rfl | exact Outcome.noConfusion h
    | none =>
      cases hst : standard_service_map.find? (fun e => e.1 == pyStrip t) with
      | some e =>
        simp only [hsp, hst] at h ⊢
        split_ifs at h ⊢ <;> first | rfl | exact Outcome.noConfusion h
      | none =>
        simp only [hsp, hst] at h ⊢
        split_ifs at h ⊢ <;> first | rfl | exact Outcome.noConfusion h
  case waiting_for_eats_shop_url =>
    simp only [step, process_eats_shop_url] at h ⊢
    cases hb : build_eats_shop_deeplink (pyStrip t) with
    | some dl =>
      simp only [hb] at h ⊢
      split_ifs at h ⊢ <;> first | rfl | exact Outcome.noConfusion h
    | none =>
      simp only [hb] at h ⊢
      split_ifs at h ⊢ <;> first | rfl | exact Outcome.noConfusion h
  case waiting_for_eats_restaurant_url =>
    simp only [step, process_eats_restaurant_url] at h ⊢
    cases hb : build_eats_restaurant_deeplink (pyStrip t) with
    | some dl =>
      simp only [hb] at h ⊢
      split_ifs at h ⊢ <;> first | rfl | exact Outcome.noConfusion h
    | none =>
      simp only [hb] at h ⊢
      split_ifs at h ⊢ <;> first | rfl | exact Outcome.noConfusion h
  case waiting_for_tariff =>
    simp only [step, process_tariff] at h ⊢
    cases hf : (tariff_map (get_app_scheme d.app)).find? (fun e => e.1 == pyStrip t) with
    | some e =>
      simp only [hf] at h ⊢
      split_ifs at h ⊢ <;> first | rfl | exact Outcome.noConfusion h
    | none =>
      simp only [hf] at h ⊢
      split_ifs at h ⊢ <;> first | rfl | exact Outcome.noConfusion h
  case finished => exact Outcome.noConfusion h
  all_goals
    simp only [step, process_app, process_reattribution, process_temporary_attribution,
      process_campaign, process_action_type, process_eats_option, process_route_start,
      process_route_end, process_custom_deeplink, process_promo_code, process_custom_tariff,
      process_banner_id, process_desktop_url] at h ⊢
  all_goals split_ifs at h ⊢ <;> first | rfl | exact Outcome.noConfusion h

/-- Witness for `c9_back_preserves_data` in the reattribution state. -/
theorem c9_back_preserves_data_witness :
    (step .waiting_for_reattribution { app := some "Go" } "Назад").2.1 =
      ({ app := some "Go" } : SessionData) :=
  c9_back_preserves_data .waiting_for_reattribution { app := some "Go" } "Назад" (by decide)
